import Mathlib

/-!
Shallow embedding of the DSCR-loan underwriting pipeline
(`api/app/services/dscr.py`, `rules.py`, `pricing.py`, `decision.py`)
and proofs about it.

Conventions of the embedding:
* Python `float` values (rates, ratios) are modelled as `ℚ`; monetary
  amounts are integer cents (`ℤ`), exactly as in the source.
* Python `int(x)` conversion (truncation toward zero) is `truncQ`.
* Python code that can raise (division by zero in the amortization
  formula when `term_months = 0`) returns `Option` and yields `none`
  at exactly the raising inputs.
* Python `x or default` on float-valued optionals treats both `None`
  and `0.0` as falsy; `or_default` reproduces that.
* Nondeterminism from `uuid4()` and `datetime.utcnow()` is made
  explicit: every function that draws an id or a timestamp in Python
  receives an id supply and a clock value as extra arguments.
* Message strings follow the source text; numeric rendering uses a
  fixed-point formatter (Python format specifiers such as `:.2f` are
  reproduced up to thousands-separator grouping, and free-format float
  rendering inside ineligibility reasons uses the rational printer).
  No theorem below depends on message text.
-/

namespace DSCRLoans

/-- Python `int()` applied to a rational value: truncation toward zero. -/
def truncQ (q : ℚ) : ℤ := if q < 0 then ⌈q⌉ else ⌊q⌋

/-- Python `round()` to an integer: round half to even. -/
def roundHalfEven (q : ℚ) : ℤ :=
  let f := ⌊q⌋
  let r := q - (f : ℚ)
  if r < 1/2 then f
  else if r > 1/2 then f + 1
  else if f % 2 = 0 then f else f + 1

/-- Python `round(q, k)`: round to `k` decimal places, half to even. -/
def roundTo (q : ℚ) (k : ℕ) : ℚ :=
  (roundHalfEven (q * (10 : ℚ) ^ k) : ℚ) / (10 : ℚ) ^ k

/-- Left-pad a numeral string with zeros to width `k`. -/
def padZeros (s : String) (k : ℕ) : String :=
  String.mk (List.replicate (k - s.length) '0') ++ s

/-- Fixed-point rendering with `k` decimal places (Python `:.kf`),
thousands-separator grouping elided. -/
def fmtFixed (q : ℚ) (k : ℕ) : String :=
  let scaled : ℤ := roundHalfEven (q * (10 : ℚ) ^ k)
  let sign := if scaled < 0 then "-" else ""
  let n := scaled.natAbs
  if k = 0 then sign ++ toString n
  else sign ++ toString (n / 10 ^ k) ++ "." ++ padZeros (toString (n % 10 ^ k)) k

/-- Python `x or default` for an optional float: `None` and `0.0` are
both falsy, so either resolves to the default. -/
def or_default (x : Option ℚ) (d : ℚ) : ℚ :=
  match x with
  | some v => if v = 0 then d else v
  | none => d

/-- Rationals extended with positive infinity, the value of the DSCR
ratio field (Python returns `float("inf")` when PITIA is zero). -/
inductive QInf where
  | val (q : ℚ)
  | inf
  deriving DecidableEq, Repr

/-- Comparison `r < c` as evaluated on a Python float that may be `inf`. -/
def QInf.ltQ : QInf → ℚ → Bool
  | .val q, c => decide (q < c)
  | .inf, _ => false

/-- Comparison `r > c` as evaluated on a Python float that may be `inf`. -/
def QInf.gtQ : QInf → ℚ → Bool
  | .val q, c => decide (q > c)
  | .inf, _ => true

/-- Comparison `r >= c` as evaluated on a Python float that may be `inf`. -/
def QInf.geQ : QInf → ℚ → Bool
  | .val q, c => decide (q ≥ c)
  | .inf, _ => true

/-- The proposition that an extended-rational ratio is at least `c`. -/
def QInf.AtLeast : QInf → ℚ → Prop
  | .val q, c => c ≤ q
  | .inf, _ => True

/-- Rendering with three decimals of a possibly-infinite ratio. -/
def QInf.fmt3 : QInf → String
  | .val q => fmtFixed q 3
  | .inf => "inf"

/-- `Money` dataclass: an integer amount in cents plus a currency code. -/
structure Money where
  amount : ℤ
  currency : String := "USD"
  deriving DecidableEq, Repr

-- =========================================================================
-- dscr.py : types
-- =========================================================================

/-- `WarningSeverity` enum. -/
inductive WarningSeverity where
  | INFO
  | WARNING
  | ERROR
  deriving DecidableEq, Repr

/-- `DSCRWarning` dataclass. -/
structure DSCRWarning where
  code : String
  message : String
  severity : WarningSeverity
  deriving DecidableEq, Repr

/-- `RentRollEntry` dataclass (`lease_expiration` timestamps are
modelled as integers). -/
structure RentRollEntry where
  unit_number : Option String := none
  unit_type : String := ""
  bedrooms : ℤ := 0
  bathrooms : ℚ := 0
  square_feet : Option ℤ := none
  monthly_rent : Money := { amount := 0 }
  is_vacant : Bool := false
  lease_expiration : Option ℤ := none
  deriving DecidableEq, Repr

/-- `DSCRCalculationInput` dataclass. -/
structure DSCRCalculationInput where
  application_id : String
  property_id : String
  gross_monthly_rent : Option Money := none
  rent_roll : Option (List RentRollEntry) := none
  vacancy_rate : Option ℚ := none
  other_income : Option Money := none
  annual_property_tax : Option Money := none
  annual_insurance : Option Money := none
  monthly_hoa : Option Money := none
  management_fee_rate : Option ℚ := none
  monthly_flood_insurance : Option Money := none
  other_monthly_expenses : Option Money := none
  loan_amount : Money := { amount := 0 }
  interest_rate : ℚ := 0
  term_months : ℤ := 360
  interest_only_months : Option ℤ := none
  is_short_term_rental : Bool := false
  str_annualized_income : Option Money := none
  deriving DecidableEq, Repr

/-- `DSCRIncomeBreakdown` dataclass. -/
structure DSCRIncomeBreakdown where
  gross_monthly_rent : Money
  vacancy_rate : ℚ
  effective_gross_rent : Money
  other_income : Option Money := none
  deriving DecidableEq, Repr

/-- `DSCRExpenseBreakdown` dataclass. -/
structure DSCRExpenseBreakdown where
  property_tax_monthly : Money
  insurance_monthly : Money
  hoa_monthly : Money
  management_fee_monthly : Money
  flood_insurance_monthly : Money
  other_expenses : Money
  total_expenses : Money
  deriving DecidableEq, Repr

/-- `DSCRNOIBreakdown` dataclass. -/
structure DSCRNOIBreakdown where
  monthly : Money
  annual : Money
  deriving DecidableEq, Repr

/-- `DSCRDebtServiceBreakdown` dataclass. -/
structure DSCRDebtServiceBreakdown where
  principal_and_interest : Money
  total_pitia : Money
  deriving DecidableEq, Repr

/-- The dictionary produced by `_sanitize_inputs`, as a record. -/
structure SanitizedInputs where
  application_id : String
  property_id : String
  gross_monthly_rent : Option ℤ
  rent_roll_units : ℕ
  vacancy_rate : Option ℚ
  loan_amount : ℤ
  interest_rate : ℚ
  term_months : ℤ
  interest_only_months : Option ℤ
  is_short_term_rental : Bool
  deriving DecidableEq, Repr

/-- `DSCRCalculationResult` dataclass (`calculated_at` timestamps are
modelled as integers). -/
structure DSCRCalculationResult where
  id : String
  application_id : String
  property_id : String
  income : DSCRIncomeBreakdown
  expenses : DSCRExpenseBreakdown
  noi : DSCRNOIBreakdown
  debt_service : DSCRDebtServiceBreakdown
  dscr_ratio : QInf
  calculated_at : ℤ
  calculator_version : String
  inputs : SanitizedInputs
  formula : String
  warnings : List DSCRWarning
  meets_minimum : Bool
  minimum_required : ℚ
  deriving DecidableEq, Repr

-- =========================================================================
-- dscr.py : DSCRCalculator
-- =========================================================================

namespace DSCRCalculator

def CALCULATOR_VERSION : String := "2.0.0"

def DEFAULT_VACANCY_RATE : ℚ := 0.05

def DEFAULT_MANAGEMENT_FEE_RATE : ℚ := 0.08

def MINIMUM_DSCR : ℚ := 1.0

def PREFERRED_DSCR : ℚ := 1.25

/-- `_add_money`. -/
def add_money (a b : Money) : Money :=
  { amount := a.amount + b.amount, currency := a.currency }

/-- `_subtract_money`. -/
def subtract_money (a b : Money) : Money :=
  { amount := a.amount - b.amount, currency := a.currency }

/-- `_multiply_money`: `Money(int(a.amount * factor), a.currency)`. -/
def multiply_money (a : Money) (factor : ℚ) : Money :=
  { amount := truncQ ((a.amount : ℚ) * factor), currency := a.currency }

/-- `_divide_money`: returns zero on a zero divisor instead of failing. -/
def divide_money (a : Money) (divisor : ℚ) : Money :=
  if divisor = 0 then { amount := 0, currency := a.currency }
  else { amount := truncQ ((a.amount : ℚ) / divisor), currency := a.currency }

/-- Sum of the non-vacant entries of a rent roll, starting from `Money(0)`. -/
def rent_roll_total (entries : List RentRollEntry) : Money :=
  entries.foldl (fun t e => if e.is_vacant then t else add_money t e.monthly_rent)
    { amount := 0 }

/-- The stated-rent / no-data tail of `_calculate_gross_rent`. -/
def gross_rent_from_stated (inp : DSCRCalculationInput) : Money × List DSCRWarning :=
  match inp.gross_monthly_rent with
  | some m => (m, [])
  | none =>
    ({ amount := 0 },
     [{ code := "NO_RENT_DATA", message := "No rental income data provided",
        severity := WarningSeverity.ERROR }])

/-- The rent-roll branch of `_calculate_gross_rent`: sum non-vacant
units and warn when the total differs from a positive stated rent by
more than 10%. -/
def gross_rent_from_roll (inp : DSCRCalculationInput) (entries : List RentRollEntry) :
    Money × List DSCRWarning :=
  let total := rent_roll_total entries
  match inp.gross_monthly_rent with
  | some stated =>
    if stated.amount > 0 then
      let pct_diff : ℚ := (|total.amount - stated.amount| : ℤ) / (stated.amount : ℚ)
      if pct_diff > 0.1 then
        (total,
         [{ code := "RENT_DISCREPANCY",
            message := "Rent roll total ($" ++ fmtFixed ((total.amount : ℚ) / 100) 2 ++
              ") differs from stated rent ($" ++ fmtFixed ((stated.amount : ℚ) / 100) 2 ++
              ") by " ++ fmtFixed (pct_diff * 100) 1 ++ "%",
            severity := WarningSeverity.WARNING }])
      else (total, [])
    else (total, [])
  | none => (total, [])

/-- `_calculate_gross_rent`: STR income takes priority, then a
non-empty rent roll (an empty list is falsy in Python), then the
stated rent, else zero with a `NO_RENT_DATA` error warning. -/
def calculate_gross_rent (inp : DSCRCalculationInput) : Money × List DSCRWarning :=
  match inp.is_short_term_rental, inp.str_annualized_income with
  | true, some strIncome => (divide_money strIncome 12, [])
  | _, _ =>
    match inp.rent_roll with
    | some entries =>
      if entries.isEmpty then gross_rent_from_stated inp
      else gross_rent_from_roll inp entries
    | none => gross_rent_from_stated inp

/-- `_apply_vacancy`: `Money(int(gross.amount * (1 - vacancy_rate)))`. -/
def apply_vacancy (gross : Money) (vacancy_rate : ℚ) : Money :=
  { amount := truncQ ((gross.amount : ℚ) * (1 - vacancy_rate)), currency := gross.currency }

/-- Monthly property tax: `annual_property_tax / 12` when present, else zero. -/
def monthly_tax (inp : DSCRCalculationInput) : Money :=
  match inp.annual_property_tax with
  | some m => divide_money m 12
  | none => { amount := 0 }

/-- Monthly insurance: `annual_insurance / 12` when present, else zero. -/
def monthly_insurance (inp : DSCRCalculationInput) : Money :=
  match inp.annual_insurance with
  | some m => divide_money m 12
  | none => { amount := 0 }

/-- `_calculate_expenses`: the expense breakdown plus the
`HIGH_EXPENSE_RATIO` warning.  The ratio guard sums only tax,
insurance, HOA and the management fee (flood insurance and other
expenses are excluded from the guard, though not from the total). -/
def calculate_expenses (inp : DSCRCalculationInput) (total_gross_income : Money) :
    DSCRExpenseBreakdown × List DSCRWarning :=
  let property_tax_monthly := monthly_tax inp
  let insurance_monthly := monthly_insurance inp
  let hoa_monthly := inp.monthly_hoa.getD { amount := 0 }
  let mgmt_rate := or_default inp.management_fee_rate DEFAULT_MANAGEMENT_FEE_RATE
  let management_fee_monthly := multiply_money total_gross_income mgmt_rate
  let flood_insurance_monthly := inp.monthly_flood_insurance.getD { amount := 0 }
  let other_expenses := inp.other_monthly_expenses.getD { amount := 0 }
  let expense_sum := property_tax_monthly.amount + insurance_monthly.amount +
    hoa_monthly.amount + management_fee_monthly.amount
  let ws :=
    if total_gross_income.amount > 0 then
      let expense_ratio : ℚ := (expense_sum : ℚ) / (total_gross_income.amount : ℚ)
      if expense_ratio > 0.5 then
        [{ code := "HIGH_EXPENSE_RATIO",
           message := "Operating expense ratio of " ++ fmtFixed (expense_ratio * 100) 1 ++
             "% is unusually high",
           severity := WarningSeverity.WARNING }]
      else []
    else []
  let total := add_money (add_money (add_money (add_money (add_money
    property_tax_monthly insurance_monthly) hoa_monthly) management_fee_monthly)
    flood_insurance_monthly) other_expenses
  ({ property_tax_monthly := property_tax_monthly,
     insurance_monthly := insurance_monthly,
     hoa_monthly := hoa_monthly,
     management_fee_monthly := management_fee_monthly,
     flood_insurance_monthly := flood_insurance_monthly,
     other_expenses := other_expenses,
     total_expenses := total }, ws)

/-- `_calculate_fixed_expenses`: tax + insurance + HOA + flood, with
neither the management fee nor `other_monthly_expenses`. -/
def calculate_fixed_expenses (inp : DSCRCalculationInput) : Money :=
  add_money (add_money (add_money (monthly_tax inp) (monthly_insurance inp))
    (inp.monthly_hoa.getD { amount := 0 })) (inp.monthly_flood_insurance.getD { amount := 0 })

/-- `_calculate_debt_service`.  Returns `none` exactly where the Python
code raises `ZeroDivisionError`: in the amortizing branch with
`term_months = 0` (there `factor - 1 = 0` when the rate is positive,
and the zero-rate fallback divides by `num_payments`). -/
def calculate_debt_service (inp : DSCRCalculationInput) :
    Option DSCRDebtServiceBreakdown :=
  let loan_dollars : ℚ := (inp.loan_amount.amount : ℚ) / 100
  let monthly_rate : ℚ := inp.interest_rate / 12
  let io_active : Bool :=
    match inp.interest_only_months with
    | some k => decide (0 < k)
    | none => false
  let monthly_pi : Option ℚ :=
    if io_active then some (loan_dollars * monthly_rate)
    else if monthly_rate > 0 then
      if inp.term_months = 0 then none
      else
        let factor : ℚ := (1 + monthly_rate) ^ (inp.term_months : ℤ)
        some (loan_dollars * monthly_rate * factor / (factor - 1))
    else
      if inp.term_months = 0 then none
      else some (loan_dollars / (inp.term_months : ℚ))
  match monthly_pi with
  | none => none
  | some pi =>
    let principal_and_interest : Money := { amount := truncQ (pi * 100) }
    let total_pitia := add_money (add_money (add_money principal_and_interest
      (monthly_tax inp)) (monthly_insurance inp)) (inp.monthly_hoa.getD { amount := 0 })
    some { principal_and_interest := principal_and_interest, total_pitia := total_pitia }

/-- `_calculate_ratio`: positive infinity when the debt service amount
is zero, otherwise the exact quotient. -/
def calculate_ratio (noi debt_service : Money) : QInf :=
  if debt_service.amount = 0 then QInf.inf
  else QInf.val ((noi.amount : ℚ) / (debt_service.amount : ℚ))

/-- `_validate_result`: post-hoc warnings about the computed ratio. -/
def validate_result (dscr_ratio : QInf) : List DSCRWarning :=
  (if dscr_ratio.ltQ MINIMUM_DSCR then
    [{ code := "BELOW_MINIMUM_DSCR",
       message := "DSCR of " ++ dscr_ratio.fmt3 ++
         " is below minimum requirement of " ++ fmtFixed MINIMUM_DSCR 1,
       severity := WarningSeverity.ERROR }]
  else if dscr_ratio.ltQ PREFERRED_DSCR then
    [{ code := "BELOW_PREFERRED_DSCR",
       message := "DSCR of " ++ dscr_ratio.fmt3 ++
         " is below preferred level of " ++ fmtFixed PREFERRED_DSCR 2,
       severity := WarningSeverity.WARNING }]
  else []) ++
  (if dscr_ratio.gtQ 3.0 then
    [{ code := "UNUSUALLY_HIGH_DSCR",
       message := "DSCR of " ++ dscr_ratio.fmt3 ++
         " is unusually high - verify income data",
       severity := WarningSeverity.INFO }]
  else [])

/-- `_sanitize_inputs`. -/
def sanitize_inputs (inp : DSCRCalculationInput) : SanitizedInputs :=
  { application_id := inp.application_id,
    property_id := inp.property_id,
    gross_monthly_rent := inp.gross_monthly_rent.map Money.amount,
    rent_roll_units := (inp.rent_roll.getD []).length,
    vacancy_rate := inp.vacancy_rate,
    loan_amount := inp.loan_amount.amount,
    interest_rate := inp.interest_rate,
    term_months := inp.term_months,
    interest_only_months := inp.interest_only_months,
    is_short_term_rental := inp.is_short_term_rental }

/-- The constant returned by `_get_formula`. -/
def FORMULA : String :=
  "DSCR = NOI / Debt Service\n\nWhere:\n  NOI = Effective Gross Income - Operating Expenses\n  Effective Gross Income = Gross Rent × (1 - Vacancy Rate) + Other Income\n  Operating Expenses = Management Fee + Property Tax + Insurance + HOA\n  Debt Service = P&I + Property Tax + Insurance + HOA (PITIA)\n\nNote: For DSCR loans, we use NOI / PITIA (not just P&I)"

/-- `DSCRCalculator.calculate`.  The Python method draws `uuid4()` and
`datetime.utcnow()` internally; those draws are the explicit `uid` and
`now` arguments here. -/
def calculate (inp : DSCRCalculationInput) (uid : String) (now : ℤ) :
    Option DSCRCalculationResult :=
  let gw := calculate_gross_rent inp
  let gross_monthly_rent := gw.1
  let vacancy_rate := or_default inp.vacancy_rate DEFAULT_VACANCY_RATE
  let effective_gross_rent := apply_vacancy gross_monthly_rent vacancy_rate
  let other_income := inp.other_income.getD { amount := 0 }
  let total_gross_income := add_money effective_gross_rent other_income
  let ew := calculate_expenses inp total_gross_income
  let expenses := ew.1
  let noi_monthly := subtract_money total_gross_income expenses.total_expenses
  let noi_annual := multiply_money noi_monthly 12
  match calculate_debt_service inp with
  | none => none
  | some debt_service =>
    let dscr_ratio := calculate_ratio noi_monthly debt_service.total_pitia
    some
      { id := uid,
        application_id := inp.application_id,
        property_id := inp.property_id,
        income :=
          { gross_monthly_rent := gross_monthly_rent,
            vacancy_rate := vacancy_rate,
            effective_gross_rent := effective_gross_rent,
            other_income := inp.other_income },
        expenses := expenses,
        noi := { monthly := noi_monthly, annual := noi_annual },
        debt_service := debt_service,
        dscr_ratio := dscr_ratio,
        calculated_at := now,
        calculator_version := CALCULATOR_VERSION,
        inputs := sanitize_inputs inp,
        formula := FORMULA,
        warnings := gw.2 ++ ew.2 ++ validate_result dscr_ratio,
        meets_minimum := dscr_ratio.geQ MINIMUM_DSCR,
        minimum_required := MINIMUM_DSCR }

/-- `DSCRCalculator.calculate_required_rent`.  `target_dscr` resolves
through Python `or` (so `None` and `0.0` both give `MINIMUM_DSCR`). -/
def calculate_required_rent (inp : DSCRCalculationInput) (target_dscr : Option ℚ) :
    Option Money :=
  let target := or_default target_dscr MINIMUM_DSCR
  match calculate_debt_service inp with
  | none => none
  | some debt_service =>
    let required_noi := multiply_money debt_service.total_pitia target
    let fixed_expenses := calculate_fixed_expenses inp
    let required_gross_before_vacancy := add_money required_noi fixed_expenses
    let vacancy_rate := or_default inp.vacancy_rate DEFAULT_VACANCY_RATE
    let required_gross_rent := divide_money required_gross_before_vacancy (1 - vacancy_rate)
    let mgmt_rate := or_default inp.management_fee_rate DEFAULT_MANAGEMENT_FEE_RATE
    some (divide_money required_gross_rent (1 - mgmt_rate))

end DSCRCalculator

-- =========================================================================
-- pricing.py
-- =========================================================================

/-- `RiskTier` enum. -/
inductive RiskTier where
  | EXCELLENT
  | GOOD
  | ACCEPTABLE
  | MARGINAL
  | HIGH_RISK
  deriving DecidableEq, Repr

/-- `PricingInput` dataclass. -/
structure PricingInput where
  dscr : ℚ
  ltv : ℚ
  credit_score : ℤ
  property_type : String
  loan_amount : ℤ
  loan_purpose : String
  state : String
  is_cash_out : Bool := false
  deriving DecidableEq, Repr

/-- `PricingAdjustment` dataclass. -/
structure PricingAdjustment where
  factor : String
  adjustment_bps : ℤ
  reason : String
  deriving DecidableEq, Repr

/-- `PricingResult` dataclass. -/
structure PricingResult where
  base_rate : ℚ
  adjustments : List PricingAdjustment
  total_adjustment_bps : ℤ
  final_rate : ℚ
  risk_tier : RiskTier
  eligible : Bool
  ineligibility_reasons : List String
  deriving DecidableEq, Repr

namespace PricingEngine

/-- `BASE_RATES` lookup table. -/
def BASE_RATES : RiskTier → ℚ
  | RiskTier.EXCELLENT => 6.50
  | RiskTier.GOOD => 6.875
  | RiskTier.ACCEPTABLE => 7.25
  | RiskTier.MARGINAL => 7.75
  | RiskTier.HIGH_RISK => 8.50

/-- Whether a half-open band `[low, high)` (upper bound `none` standing
for `float("inf")`) contains `x`. -/
def band_matches (low : ℚ) (high : Option ℚ) (x : ℚ) : Bool :=
  decide (low ≤ x) &&
    (match high with
     | none => true
     | some h => decide (x < h))

/-- `DSCR_ADJUSTMENTS` table, in Python dict insertion order. -/
def DSCR_ADJUSTMENTS : List ((ℚ × Option ℚ) × ℤ) :=
  [((1.50, none), -25),
   ((1.25, some 1.50), 0),
   ((1.10, some 1.25), 25),
   ((1.00, some 1.10), 50),
   ((0.0, some 1.00), 125)]

/-- `LTV_ADJUSTMENTS` table. -/
def LTV_ADJUSTMENTS : List ((ℚ × Option ℚ) × ℤ) :=
  [((0, some 65), -25),
   ((65, some 70), 0),
   ((70, some 75), 25),
   ((75, some 80), 50),
   ((80, none), 100)]

/-- `CREDIT_ADJUSTMENTS` table; the adjustment `none` marks the
ineligible band. -/
def CREDIT_ADJUSTMENTS : List ((ℚ × Option ℚ) × Option ℤ) :=
  [((760, none), some (-25)),
   ((740, some 760), some 0),
   ((720, some 740), some 25),
   ((700, some 720), some 50),
   ((680, some 700), some 100),
   ((660, some 680), some 150),
   ((0, some 660), none)]

/-- `PROPERTY_TYPE_ADJUSTMENTS` table. -/
def PROPERTY_TYPE_ADJUSTMENTS : List (String × ℤ) :=
  [("SFR", 0),
   ("CONDO", 25),
   ("TOWNHOUSE", 25),
   ("DUPLEX", 50),
   ("TRIPLEX", 75),
   ("FOURPLEX", 75),
   ("MULTIFAMILY_5PLUS", 125)]

def MIN_DSCR : ℚ := 0.75

def MIN_CREDIT_SCORE : ℤ := 660

def MAX_LTV : ℚ := 80

/-- `_get_dscr_adjustment`: first matching band, else 0. -/
def get_dscr_adjustment (dscr : ℚ) : ℤ :=
  match DSCR_ADJUSTMENTS.find? (fun b => band_matches b.1.1 b.1.2 dscr) with
  | some b => b.2
  | none => 0

/-- `_get_ltv_adjustment`: first matching band, else 0. -/
def get_ltv_adjustment (ltv : ℚ) : ℤ :=
  match LTV_ADJUSTMENTS.find? (fun b => band_matches b.1.1 b.1.2 ltv) with
  | some b => b.2
  | none => 0

/-- `_get_credit_adjustment`: first matching band (whose value may
itself be `None`), else `None`. -/
def get_credit_adjustment (score : ℤ) : Option ℤ :=
  match CREDIT_ADJUSTMENTS.find? (fun b => band_matches b.1.1 b.1.2 (score : ℚ)) with
  | some b => b.2
  | none => none

/-- `PROPERTY_TYPE_ADJUSTMENTS.get(property_type, 50)`. -/
def property_type_adjustment (property_type : String) : ℤ :=
  match PROPERTY_TYPE_ADJUSTMENTS.find? (fun p => p.1 == property_type) with
  | some p => p.2
  | none => 50

/-- `_determine_risk_tier`: 0-4 points each for the DSCR, credit and
LTV bands, mapped to a tier. -/
def determine_risk_tier (inp : PricingInput) : RiskTier :=
  let score : ℤ :=
    (if inp.dscr ≥ 1.50 then 4
     else if inp.dscr ≥ 1.25 then 3
     else if inp.dscr ≥ 1.10 then 2
     else if inp.dscr ≥ 1.00 then 1
     else 0) +
    (if inp.credit_score ≥ 760 then 4
     else if inp.credit_score ≥ 740 then 3
     else if inp.credit_score ≥ 720 then 2
     else if inp.credit_score ≥ 700 then 1
     else 0) +
    (if inp.ltv ≤ 65 then 4
     else if inp.ltv ≤ 70 then 3
     else if inp.ltv ≤ 75 then 2
     else if inp.ltv ≤ 80 then 1
     else 0)
  if score ≥ 10 then RiskTier.EXCELLENT
  else if score ≥ 7 then RiskTier.GOOD
  else if score ≥ 4 then RiskTier.ACCEPTABLE
  else if score ≥ 2 then RiskTier.MARGINAL
  else RiskTier.HIGH_RISK

/-- Free-format rendering of a rational, standing in for Python
`str(float)` inside reason strings (no theorem depends on it). -/
def pyStr (q : ℚ) : String := toString q

/-- `PricingEngine.calculate_pricing`. -/
def calculate_pricing (inp : PricingInput) : PricingResult :=
  let ineligibility_reasons : List String :=
    (if inp.credit_score < MIN_CREDIT_SCORE then
      ["Credit score " ++ toString inp.credit_score ++ " below minimum " ++
        toString MIN_CREDIT_SCORE]
    else []) ++
    (if inp.ltv > MAX_LTV then
      ["LTV " ++ pyStr inp.ltv ++ "% exceeds maximum " ++ pyStr MAX_LTV ++ "%"]
    else []) ++
    (if inp.dscr < MIN_DSCR then
      ["DSCR " ++ pyStr inp.dscr ++ " below minimum " ++ pyStr MIN_DSCR]
    else [])
  let risk_tier := determine_risk_tier inp
  let base_rate := BASE_RATES risk_tier
  let dscr_adj := get_dscr_adjustment inp.dscr
  let ltv_adj := get_ltv_adjustment inp.ltv
  let credit_adj := get_credit_adjustment inp.credit_score
  let prop_adj := property_type_adjustment inp.property_type
  let adjustments : List PricingAdjustment :=
    (if dscr_adj ≠ 0 then
      [{ factor := "DSCR", adjustment_bps := dscr_adj,
         reason := "DSCR of " ++ fmtFixed inp.dscr 2 }]
    else []) ++
    (if ltv_adj ≠ 0 then
      [{ factor := "LTV", adjustment_bps := ltv_adj,
         reason := "LTV of " ++ fmtFixed inp.ltv 1 ++ "%" }]
    else []) ++
    (match credit_adj with
     | some adj =>
       if adj ≠ 0 then
         [{ factor := "Credit Score", adjustment_bps := adj,
            reason := "Credit score of " ++ toString inp.credit_score }]
       else []
     | none => []) ++
    (if prop_adj ≠ 0 then
      [{ factor := "Property Type", adjustment_bps := prop_adj,
         reason := "Property type: " ++ inp.property_type }]
    else []) ++
    (if inp.is_cash_out then
      [{ factor := "Cash Out", adjustment_bps := 50, reason := "Cash-out refinance" }]
    else [])
  let total_adjustment_bps := (adjustments.map PricingAdjustment.adjustment_bps).sum
  let final_rate := base_rate + (total_adjustment_bps : ℚ) / 100
  { base_rate := base_rate,
    adjustments := adjustments,
    total_adjustment_bps := total_adjustment_bps,
    final_rate := roundTo final_rate 3,
    risk_tier := risk_tier,
    eligible := ineligibility_reasons.isEmpty,
    ineligibility_reasons := ineligibility_reasons }

end PricingEngine

-- =========================================================================
-- rules.py
-- =========================================================================

/-- `RuleCategory` enum. -/
inductive RuleCategory where
  | ELIGIBILITY
  | CREDIT
  | PROPERTY
  | INCOME
  | COLLATERAL
  deriving DecidableEq, Repr

/-- `RuleSeverity` enum. -/
inductive RuleSeverity where
  | HARD_STOP
  | EXCEPTION_REQUIRED
  | WARNING
  | INFO
  deriving DecidableEq, Repr

/-- `RuleStatus` enum. -/
inductive RuleStatus where
  | PASS
  | FAIL
  | WARNING
  | NOT_APPLICABLE
  deriving DecidableEq, Repr

/-- `LoanData` dataclass. -/
structure LoanData where
  application_id : String
  dscr : ℚ
  ltv : ℚ
  cltv : ℚ
  credit_score : ℤ
  property_type : String
  property_state : String
  loan_amount : ℤ
  loan_purpose : String
  occupancy_type : String
  units : ℤ
  is_rural : Bool := false
  months_reserves : ℤ := 0
  prior_bankruptcies : ℤ := 0
  prior_foreclosures : ℤ := 0
  current_delinquencies : ℤ := 0
  deriving DecidableEq, Repr

/-- `RuleResult` dataclass (the never-populated `details` dict is
modelled as an association list defaulting to empty). -/
structure RuleResult where
  rule_id : String
  rule_name : String
  category : RuleCategory
  status : RuleStatus
  severity : RuleSeverity
  message : String
  details : List (String × String) := []
  exception_eligible : Bool := false
  deriving DecidableEq, Repr

/-- `RulesEvaluationResult` dataclass. -/
structure RulesEvaluationResult where
  id : String
  application_id : String
  evaluated_at : ℤ
  overall_status : RuleStatus
  rule_results : List RuleResult
  hard_stops : List RuleResult
  exceptions_required : List RuleResult
  warnings : List RuleResult
  passed_count : ℕ
  failed_count : ℕ
  warning_count : ℕ
  deriving DecidableEq, Repr

/-- One entry of the rule table: the `check` predicate returns
`none` where the Python callable would raise an exception. -/
structure Rule where
  id : String
  name : String
  category : RuleCategory
  severity : RuleSeverity
  check : LoanData → Option Bool
  message : LoanData → Bool → String

/-- `RulesEngine` holds its (immutable) rule table. -/
structure RulesEngine where
  rules : List Rule

namespace RulesEngine

/-- `_evaluate_rule`: a raising predicate (modelled by `check` being
`none`) is caught and mapped to `NOT_APPLICABLE`. -/
def evaluate_rule (rule : Rule) (ld : LoanData) : RuleResult :=
  let sm : RuleStatus × String :=
    match rule.check ld with
    | some passed =>
      (if passed then RuleStatus.PASS
       else if rule.severity = RuleSeverity.WARNING then RuleStatus.WARNING
       else RuleStatus.FAIL,
       rule.message ld passed)
    | none => (RuleStatus.NOT_APPLICABLE, "Rule evaluation error")
  { rule_id := rule.id,
    rule_name := rule.name,
    category := rule.category,
    status := sm.1,
    severity := rule.severity,
    message := sm.2,
    exception_eligible := rule.severity == RuleSeverity.EXCEPTION_REQUIRED }

/-- `RulesEngine.evaluate`: run every rule, partition the results by
status and severity, and aggregate the overall status.  The internal
`uuid4()` and `utcnow()` draws are the `uid` and `now` arguments. -/
def evaluate (engine : RulesEngine) (ld : LoanData) (uid : String) (now : ℤ) :
    RulesEvaluationResult :=
  let results := engine.rules.map (fun r => evaluate_rule r ld)
  let hard_stops := results.filter
    (fun r => r.status == RuleStatus.FAIL && r.severity == RuleSeverity.HARD_STOP)
  let exceptions_required := results.filter
    (fun r => r.status == RuleStatus.FAIL && r.severity == RuleSeverity.EXCEPTION_REQUIRED)
  let warnings := results.filter (fun r => r.status == RuleStatus.WARNING)
  let overall_status :=
    if hard_stops ≠ [] then RuleStatus.FAIL
    else if exceptions_required ≠ [] then RuleStatus.WARNING
    else RuleStatus.PASS
  { id := uid,
    application_id := ld.application_id,
    evaluated_at := now,
    overall_status := overall_status,
    rule_results := results,
    hard_stops := hard_stops,
    exceptions_required := exceptions_required,
    warnings := warnings,
    passed_count := (results.filter (fun r => r.status == RuleStatus.PASS)).length,
    failed_count := (results.filter (fun r => r.status == RuleStatus.FAIL)).length,
    warning_count := (results.filter (fun r => r.status == RuleStatus.WARNING)).length }

/-- `_init_rules`: the static underwriting rule table.  Every predicate
of the static table is total on a well-typed `LoanData`, hence wrapped
in `some`. -/
def init_rules : List Rule :=
  [{ id := "DSCR-001", name := "Minimum DSCR",
     category := RuleCategory.INCOME, severity := RuleSeverity.HARD_STOP,
     check := fun d => some (decide (d.dscr ≥ 0.75)),
     message := fun d p =>
       "DSCR of " ++ fmtFixed d.dscr 2 ++ " " ++
         (if p then "meets" else "does not meet") ++ " minimum 0.75 requirement" },
   { id := "DSCR-002", name := "DSCR Below 1.0",
     category := RuleCategory.INCOME, severity := RuleSeverity.EXCEPTION_REQUIRED,
     check := fun d => some (decide (d.dscr ≥ 1.0)),
     message := fun d p =>
       "DSCR of " ++ fmtFixed d.dscr 2 ++ " is " ++
         (if p then "above" else "below") ++ " 1.0 threshold" },
   { id := "LTV-001", name := "Maximum LTV",
     category := RuleCategory.COLLATERAL, severity := RuleSeverity.HARD_STOP,
     check := fun d => some (decide (d.ltv ≤ 80)),
     message := fun d p =>
       "LTV of " ++ fmtFixed d.ltv 1 ++ "% " ++
         (if p then "is within" else "exceeds") ++ " 80% maximum" },
   { id := "LTV-002", name := "High LTV Warning",
     category := RuleCategory.COLLATERAL, severity := RuleSeverity.WARNING,
     check := fun d => some (decide (d.ltv ≤ 75)),
     message := fun d p =>
       "LTV of " ++ fmtFixed d.ltv 1 ++ "% " ++
         (if p then "is" else "is not") ++ " within preferred 75% threshold" },
   { id := "CREDIT-001", name := "Minimum Credit Score",
     category := RuleCategory.CREDIT, severity := RuleSeverity.HARD_STOP,
     check := fun d => some (decide (d.credit_score ≥ 660)),
     message := fun d p =>
       "Credit score of " ++ toString d.credit_score ++ " " ++
         (if p then "meets" else "does not meet") ++ " minimum 660 requirement" },
   { id := "CREDIT-002", name := "Credit Score Warning",
     category := RuleCategory.CREDIT, severity := RuleSeverity.WARNING,
     check := fun d => some (decide (d.credit_score ≥ 700)),
     message := fun d p =>
       "Credit score of " ++ toString d.credit_score ++ " " ++
         (if p then "is" else "is not") ++ " above preferred 700 threshold" },
   { id := "CREDIT-003", name := "Recent Bankruptcy",
     category := RuleCategory.CREDIT, severity := RuleSeverity.HARD_STOP,
     check := fun d => some (decide (d.prior_bankruptcies = 0)),
     message := fun d p =>
       if p then "No bankruptcy seasoning issues"
       else "Borrower has " ++ toString d.prior_bankruptcies ++ " prior bankruptcy(ies)" },
   { id := "CREDIT-004", name := "Recent Foreclosure",
     category := RuleCategory.CREDIT, severity := RuleSeverity.HARD_STOP,
     check := fun d => some (decide (d.prior_foreclosures = 0)),
     message := fun d p =>
       if p then "No foreclosure seasoning issues"
       else "Borrower has " ++ toString d.prior_foreclosures ++ " prior foreclosure(s)" },
   { id := "PROP-001", name := "Eligible Property Type",
     category := RuleCategory.PROPERTY, severity := RuleSeverity.HARD_STOP,
     check := fun d => some
       (["SFR", "CONDO", "TOWNHOUSE", "DUPLEX", "TRIPLEX", "FOURPLEX",
         "MULTIFAMILY_5PLUS"].contains d.property_type),
     message := fun d p =>
       "Property type " ++ d.property_type ++ " " ++
         (if p then "is" else "is not") ++ " eligible" },
   { id := "PROP-002", name := "Rural Property",
     category := RuleCategory.PROPERTY, severity := RuleSeverity.EXCEPTION_REQUIRED,
     check := fun d => some (!d.is_rural),
     message := fun _ p =>
       if p then "Property is not in a rural area"
       else "Property is in a rural area - exception required" },
   { id := "LOAN-001", name := "Minimum Loan Amount",
     category := RuleCategory.ELIGIBILITY, severity := RuleSeverity.HARD_STOP,
     check := fun d => some (decide (d.loan_amount ≥ 10000000)),
     message := fun d p =>
       "Loan amount $" ++ fmtFixed ((d.loan_amount : ℚ) / 100) 0 ++ " " ++
         (if p then "meets" else "does not meet") ++ " minimum $100,000" },
   { id := "LOAN-002", name := "Maximum Loan Amount",
     category := RuleCategory.ELIGIBILITY, severity := RuleSeverity.HARD_STOP,
     check := fun d => some (decide (d.loan_amount ≤ 300000000)),
     message := fun d p =>
       "Loan amount $" ++ fmtFixed ((d.loan_amount : ℚ) / 100) 0 ++ " " ++
         (if p then "is within" else "exceeds") ++ " maximum $3,000,000" },
   { id := "RESERVE-001", name := "Minimum Reserves",
     category := RuleCategory.ELIGIBILITY, severity := RuleSeverity.EXCEPTION_REQUIRED,
     check := fun d => some (decide (d.months_reserves ≥ 6)),
     message := fun d p =>
       toString d.months_reserves ++ " months reserves " ++
         (if p then "meets" else "does not meet") ++ " 6 month minimum" }]

end RulesEngine

/-- The module-level `rules_engine` singleton. -/
def rules_engine : RulesEngine := { rules := RulesEngine.init_rules }

-- =========================================================================
-- decision.py
-- =========================================================================

/-- `DecisionType` enum. -/
inductive DecisionType where
  | APPROVED
  | CONDITIONALLY_APPROVED
  | REFERRED
  | DECLINED
  | SUSPENDED
  deriving DecidableEq, Repr

/-- `DecisionReason` enum. -/
inductive DecisionReason where
  | MEETS_GUIDELINES
  | EXCEPTION_REQUIRED
  | HARD_STOP_VIOLATION
  | HIGH_RISK
  | PRICING_INELIGIBLE
  | MANUAL_REVIEW_REQUIRED
  deriving DecidableEq, Repr

/-- `Condition` dataclass. -/
structure Condition where
  id : String
  category : String
  description : String
  required : Bool
  source : String
  deriving DecidableEq, Repr

/-- The `details` dictionary populated by `DecisionService.evaluate`. -/
structure DecisionDetails where
  rules_evaluation_id : String
  passed_rules : ℕ
  failed_rules : ℕ
  deriving DecidableEq, Repr

/-- `DecisionResult` dataclass. -/
structure DecisionResult where
  id : String
  application_id : String
  decision_type : DecisionType
  decision_reason : DecisionReason
  decided_at : ℤ
  rules_passed : Bool
  hard_stops : ℕ
  exceptions_required : ℕ
  warnings : ℕ
  pricing : Option PricingResult
  final_rate : Option ℚ
  eligible_for_pricing : Bool
  conditions : List Condition
  details : DecisionDetails
  notes : List String
  deriving DecidableEq, Repr

namespace DecisionService

/-- `_determine_decision`: ordered, first-match-wins resolution. -/
def determine_decision (_rules_status : RuleStatus)
    (hard_stops exceptions : List RuleResult) (pricing : Option PricingResult) :
    DecisionType × DecisionReason :=
  if hard_stops ≠ [] then
    (DecisionType.DECLINED, DecisionReason.HARD_STOP_VIOLATION)
  else if (match pricing with | some p => !p.eligible | none => false) then
    (DecisionType.DECLINED, DecisionReason.PRICING_INELIGIBLE)
  else if exceptions ≠ [] then
    (DecisionType.REFERRED, DecisionReason.EXCEPTION_REQUIRED)
  else if (match pricing with | some p => p.risk_tier == RiskTier.HIGH_RISK | none => false) then
    (DecisionType.REFERRED, DecisionReason.HIGH_RISK)
  else
    (DecisionType.CONDITIONALLY_APPROVED, DecisionReason.MEETS_GUIDELINES)

/-- `_generate_conditions`: the fixed baseline set, a rent-roll
condition when `units > 1`, and one non-required condition per rule
warning.  Fresh `uuid4()` draws are supplied by `ids`. -/
def generate_conditions (rules_result : RulesEvaluationResult)
    (_pricing_result : Option PricingResult) (ld : LoanData) (ids : ℕ → String) :
    List Condition :=
  [{ id := ids 0, category := "PTD", description := "Verify borrower identity",
     required := true, source := "AUTOMATED" },
   { id := ids 1, category := "PTD", description := "Obtain credit report",
     required := true, source := "AUTOMATED" },
   { id := ids 2, category := "PTD",
     description := "Verify property ownership/purchase contract",
     required := true, source := "AUTOMATED" },
   { id := ids 3, category := "PTD",
     description := "Obtain rent schedule or lease agreements",
     required := true, source := "AUTOMATED" }] ++
  (if ld.units > 1 then
    [{ id := ids 4, category := "PTD", description := "Obtain rent roll for all units",
       required := true, source := "AUTOMATED" }]
  else []) ++
  [{ id := ids 5, category := "PTC", description := "Obtain satisfactory appraisal",
     required := true, source := "AUTOMATED" },
   { id := ids 6, category := "PTF", description := "Clear title with no liens",
     required := true, source := "AUTOMATED" },
   { id := ids 7, category := "PTF", description := "Proof of hazard insurance",
     required := true, source := "AUTOMATED" }] ++
  rules_result.warnings.mapIdx (fun i w =>
    { id := ids (8 + i), category := "PTD", description := "Address: " ++ w.message,
      required := false, source := "AUTOMATED" })

/-- `DecisionService.evaluate`: runs the rules engine unconditionally,
the pricing engine only when a pricing input is supplied, resolves the
decision, generates conditions and notes.  All internal `uuid4()` and
`utcnow()` draws come from the explicit `ids` supply and `now`. -/
def evaluate (ld : LoanData) (pricing_input : Option PricingInput)
    (ids : ℕ → String) (now : ℤ) : DecisionResult :=
  let rules_result := RulesEngine.evaluate rules_engine ld (ids 0) now
  let pricing_result := pricing_input.map PricingEngine.calculate_pricing
  let dr := determine_decision rules_result.overall_status rules_result.hard_stops
    rules_result.exceptions_required pricing_result
  let conditions := generate_conditions rules_result pricing_result ld (fun n => ids (n + 2))
  let notes : List String :=
    (if rules_result.hard_stops ≠ [] then
      ("Hard stop violations: " ++ toString rules_result.hard_stops.length) ::
        rules_result.hard_stops.map (fun hs => "  - " ++ hs.rule_name ++ ": " ++ hs.message)
    else []) ++
    (if rules_result.exceptions_required ≠ [] then
      ["Exceptions required: " ++ toString rules_result.exceptions_required.length]
    else [])
  { id := ids 1,
    application_id := ld.application_id,
    decision_type := dr.1,
    decision_reason := dr.2,
    decided_at := now,
    rules_passed := rules_result.overall_status == RuleStatus.PASS,
    hard_stops := rules_result.hard_stops.length,
    exceptions_required := rules_result.exceptions_required.length,
    warnings := rules_result.warnings.length,
    pricing := pricing_result,
    final_rate := pricing_result.map PricingResult.final_rate,
    eligible_for_pricing :=
      (match pricing_result with | some p => p.eligible | none => false),
    conditions := conditions,
    details :=
      { rules_evaluation_id := rules_result.id,
        passed_rules := rules_result.passed_count,
        failed_rules := rules_result.failed_count },
    notes := notes }

end DecisionService

-- =========================================================================
-- Concrete inputs used by scenario conjuncts, witnesses and
-- counterexamples
-- =========================================================================

/-- Spec scenario: credit_score 650, ltv 70, dscr 1.3, every other
fact passing. -/
def loan_credit650 : LoanData :=
  { application_id := "APP-650", dscr := 1.3, ltv := 70, cltv := 70,
    credit_score := 650, property_type := "SFR", property_state := "TX",
    loan_amount := 50000000, loan_purpose := "PURCHASE",
    occupancy_type := "INVESTMENT", units := 1, is_rural := false,
    months_reserves := 12 }

/-- Spec scenario: dscr 0.95, all else passing. -/
def loan_dscr095 : LoanData :=
  { application_id := "APP-095", dscr := 0.95, ltv := 70, cltv := 70,
    credit_score := 720, property_type := "SFR", property_state := "TX",
    loan_amount := 50000000, loan_purpose := "PURCHASE",
    occupancy_type := "INVESTMENT", units := 1, is_rural := false,
    months_reserves := 12 }

/-- A trivial calculation input (zero loan, zero rent): its PITIA is
zero cents. -/
def input_zero_pitia : DSCRCalculationInput :=
  { application_id := "APP-Z", property_id := "PROP-Z" }

/-- Pricing input with a negative DSCR (negative NOI), used against
the DSCR-band lookup. -/
def pricing_neg_dscr : PricingInput :=
  { dscr := -1, ltv := 70, credit_score := 700, property_type := "SFR",
    loan_amount := 20000000, loan_purpose := "PURCHASE", state := "TX" }

/-- Pricing input with dscr 0.5 (low band). -/
def pricing_low_dscr : PricingInput :=
  { dscr := 0.5, ltv := 70, credit_score := 700, property_type := "SFR",
    loan_amount := 20000000, loan_purpose := "PURCHASE", state := "TX" }

/-- Pricing input with dscr 1.6 (high band). -/
def pricing_high_dscr : PricingInput :=
  { dscr := 1.6, ltv := 70, credit_score := 700, property_type := "SFR",
    loan_amount := 20000000, loan_purpose := "PURCHASE", state := "TX" }

/-- Calculation input whose PITIA decreases when the interest rate
rises: a negative loan amount in its interest-only period. -/
def input_neg_loan : DSCRCalculationInput :=
  { application_id := "APP-N", property_id := "PROP-N",
    loan_amount := { amount := -100 }, interest_only_months := some 1 }

/-- Calculation input exercising the expense-ratio warning guard: a
large flood-insurance premium that the guard ignores. -/
def input_flood : DSCRCalculationInput :=
  { application_id := "APP-F", property_id := "PROP-F",
    gross_monthly_rent := some { amount := 100000 },
    vacancy_rate := some 0.01,
    management_fee_rate := some 0.01,
    monthly_flood_insurance := some { amount := 1000000 },
    loan_amount := { amount := 1000000 },
    interest_rate := 0, term_months := 100 }

/-- Calculation input on which the expense-ratio warning fires. -/
def input_high_tax : DSCRCalculationInput :=
  { application_id := "APP-T", property_id := "PROP-T",
    gross_monthly_rent := some { amount := 100000 },
    vacancy_rate := some 0.5,
    annual_property_tax := some { amount := 1200000 },
    loan_amount := { amount := 1000000 },
    interest_rate := 0, term_months := 100 }

/-- Round-trip witness input. -/
def input_round_trip : DSCRCalculationInput :=
  { application_id := "APP-R", property_id := "PROP-R",
    gross_monthly_rent := some { amount := 100000 },
    annual_property_tax := some { amount := 720000 },
    annual_insurance := some { amount := 180000 },
    loan_amount := { amount := 45000000 },
    interest_rate := 0, term_months := 360 }

/-- Round-trip counterexample input: `other_monthly_expenses` is
charged by `calculate` but ignored by `calculate_required_rent`. -/
def input_other_expenses : DSCRCalculationInput :=
  { application_id := "APP-O", property_id := "PROP-O",
    gross_monthly_rent := some { amount := 100000 },
    other_monthly_expenses := some { amount := 1000000 },
    loan_amount := { amount := 1000000 },
    interest_rate := 0, term_months := 100 }

/-- Monotonicity witness input. -/
def input_amortizing : DSCRCalculationInput :=
  { application_id := "APP-M", property_id := "PROP-M",
    annual_property_tax := some { amount := 720000 },
    loan_amount := { amount := 45000000 },
    term_months := 360 }

/-- A rule whose predicate always raises (modelled by `check`
returning `none`), mimicking e.g. a comparison against a missing
(`None`) loan fact in Python. -/
def rule_raising : Rule :=
  { id := "TEST-001", name := "Raising Rule", category := RuleCategory.ELIGIBILITY,
    severity := RuleSeverity.HARD_STOP, check := fun _ => none,
    message := fun _ _ => "never evaluated" }

/-- The debt-service breakdown of `input_zero_pitia`. -/
def bd_zero : DSCRDebtServiceBreakdown :=
  { principal_and_interest := { amount := 0 }, total_pitia := { amount := 0 } }

/-- Determinism counterexample input. -/
def input_determinism : DSCRCalculationInput :=
  { application_id := "APP-D", property_id := "PROP-D",
    gross_monthly_rent := some { amount := 350000 },
    loan_amount := { amount := 45000000 },
    interest_rate := 0, term_months := 360 }

/-- The present-value annuity factor: the sum of the discount factors
of the `n` monthly payments at monthly rate `r`.  The amortizing
payment of the source equals principal divided by this sum; it is the
vehicle for the monotonicity proof. -/
def annuityT (r : ℚ) (n : ℕ) : ℚ :=
  ∑ k ∈ Finset.range n, ((1 + r) ^ (k + 1))⁻¹

-- =========================================================================
-- Projections that erase the internally generated id and timestamp
-- fields (used to state determinism modulo uuid4/utcnow draws)
-- =========================================================================

/-- Every field of a `DSCRCalculationResult` except the internally
drawn `id` and `calculated_at`. -/
def dscr_core (r : DSCRCalculationResult) :=
  (r.application_id, r.property_id, r.income, r.expenses, r.noi, r.debt_service,
   r.dscr_ratio, r.calculator_version, r.inputs, r.formula, r.warnings,
   r.meets_minimum, r.minimum_required)

/-- Every field of a `RulesEvaluationResult` except `id` and
`evaluated_at`. -/
def rules_core (r : RulesEvaluationResult) :=
  (r.application_id, r.overall_status, r.rule_results, r.hard_stops,
   r.exceptions_required, r.warnings, r.passed_count, r.failed_count,
   r.warning_count)

/-- A condition without its generated id. -/
def condition_core (c : Condition) :=
  (c.category, c.description, c.required, c.source)

/-- Every field of a `DecisionResult` except the generated ids and the
decision timestamp (condition ids and the nested rules-evaluation id
included). -/
def decision_core (r : DecisionResult) :=
  (r.application_id, r.decision_type, r.decision_reason, r.rules_passed,
   r.hard_stops, r.exceptions_required, r.warnings, r.pricing, r.final_rate,
   r.eligible_for_pricing, r.conditions.map condition_core,
   (r.details.passed_rules, r.details.failed_rules), r.notes)

-- =========================================================================
-- Helper lemmas
-- =========================================================================

theorem truncQ_of_nonneg (q : ℚ) (h : 0 ≤ q) : truncQ q = ⌊q⌋ := by
  unfold truncQ
  rw [if_neg (not_lt.mpr h)]

theorem truncQ_nonneg (q : ℚ) (h : 0 ≤ q) : 0 ≤ truncQ q := by
  rw [truncQ_of_nonneg q h]
  exact Int.floor_nonneg.mpr h

theorem truncQ_cast_le (q : ℚ) (h : 0 ≤ q) : (truncQ q : ℚ) ≤ q := by
  rw [truncQ_of_nonneg q h]
  exact Int.floor_le q

theorem sub_one_lt_truncQ (q : ℚ) (h : 0 ≤ q) : q - 1 < (truncQ q : ℚ) := by
  rw [truncQ_of_nonneg q h]
  exact Int.sub_one_lt_floor q

theorem truncQ_mono {a b : ℚ} (h : a ≤ b) : truncQ a ≤ truncQ b := by
  unfold truncQ
  rcases lt_or_le a 0 with ha | ha
  · rw [if_pos ha]
    rcases lt_or_le b 0 with hb | hb
    · rw [if_pos hb]
      exact Int.ceil_le_ceil h
    · rw [if_neg (not_lt.mpr hb)]
      exact le_trans (Int.ceil_le.mpr (le_of_lt ha)) (Int.floor_nonneg.mpr hb)
  · rw [if_neg (not_lt.mpr ha), if_neg (not_lt.mpr (le_trans ha h))]
    exact Int.floor_le_floor h

theorem evaluate_overall_status_eq (eng : RulesEngine) (ld : LoanData) (u : String) (n : ℤ) :
    (RulesEngine.evaluate eng ld u n).overall_status =
      (RulesEngine.evaluate eng ld "" 0).overall_status := rfl

theorem evaluate_hard_stops_eq (eng : RulesEngine) (ld : LoanData) (u : String) (n : ℤ) :
    (RulesEngine.evaluate eng ld u n).hard_stops =
      (RulesEngine.evaluate eng ld "" 0).hard_stops := rfl

theorem evaluate_exceptions_eq (eng : RulesEngine) (ld : LoanData) (u : String) (n : ℤ) :
    (RulesEngine.evaluate eng ld u n).exceptions_required =
      (RulesEngine.evaluate eng ld "" 0).exceptions_required := rfl

theorem evaluate_warnings_eq (eng : RulesEngine) (ld : LoanData) (u : String) (n : ℤ) :
    (RulesEngine.evaluate eng ld u n).warnings =
      (RulesEngine.evaluate eng ld "" 0).warnings := rfl

theorem evaluate_passed_count_eq (eng : RulesEngine) (ld : LoanData) (u : String) (n : ℤ) :
    (RulesEngine.evaluate eng ld u n).passed_count =
      (RulesEngine.evaluate eng ld "" 0).passed_count := rfl

theorem evaluate_failed_count_eq (eng : RulesEngine) (ld : LoanData) (u : String) (n : ℤ) :
    (RulesEngine.evaluate eng ld u n).failed_count =
      (RulesEngine.evaluate eng ld "" 0).failed_count := rfl

/-- Evaluating `calculate` when the debt-service step succeeds: the
result exists and its fields are the pipeline components. -/
theorem calculate_components (inp : DSCRCalculationInput) (uid : String) (now : ℤ)
    (bd : DSCRDebtServiceBreakdown)
    (h : DSCRCalculator.calculate_debt_service inp = some bd) :
    ∃ res, DSCRCalculator.calculate inp uid now = some res ∧
      res.income.effective_gross_rent =
        DSCRCalculator.apply_vacancy (DSCRCalculator.calculate_gross_rent inp).1
          (or_default inp.vacancy_rate DSCRCalculator.DEFAULT_VACANCY_RATE) ∧
      res.income.other_income = inp.other_income ∧
      res.expenses = (DSCRCalculator.calculate_expenses inp
        (DSCRCalculator.add_money
          (DSCRCalculator.apply_vacancy (DSCRCalculator.calculate_gross_rent inp).1
            (or_default inp.vacancy_rate DSCRCalculator.DEFAULT_VACANCY_RATE))
          (inp.other_income.getD { amount := 0 }))).1 ∧
      res.noi.monthly = DSCRCalculator.subtract_money
        (DSCRCalculator.add_money
          (DSCRCalculator.apply_vacancy (DSCRCalculator.calculate_gross_rent inp).1
            (or_default inp.vacancy_rate DSCRCalculator.DEFAULT_VACANCY_RATE))
          (inp.other_income.getD { amount := 0 }))
        (DSCRCalculator.calculate_expenses inp
          (DSCRCalculator.add_money
            (DSCRCalculator.apply_vacancy (DSCRCalculator.calculate_gross_rent inp).1
              (or_default inp.vacancy_rate DSCRCalculator.DEFAULT_VACANCY_RATE))
            (inp.other_income.getD { amount := 0 }))).1.total_expenses ∧
      res.debt_service = bd ∧
      res.dscr_ratio = DSCRCalculator.calculate_ratio res.noi.monthly bd.total_pitia ∧
      res.warnings = (DSCRCalculator.calculate_gross_rent inp).2 ++
        (DSCRCalculator.calculate_expenses inp
          (DSCRCalculator.add_money
            (DSCRCalculator.apply_vacancy (DSCRCalculator.calculate_gross_rent inp).1
              (or_default inp.vacancy_rate DSCRCalculator.DEFAULT_VACANCY_RATE))
            (inp.other_income.getD { amount := 0 }))).2 ++
        DSCRCalculator.validate_result res.dscr_ratio := by
  unfold DSCRCalculator.calculate
  rw [h]
  exact ⟨_, rfl, rfl, rfl, rfl, rfl, rfl, rfl, rfl⟩

-- =========================================================================
-- Claim theorems
-- =========================================================================

/-- C10: `DecisionService.evaluate` only ever returns DECLINED,
REFERRED or CONDITIONALLY_APPROVED; the APPROVED and SUSPENDED members
of `DecisionType` are never produced. -/
theorem c10_decision_type_range (ld : LoanData) (pricing_input : Option PricingInput)
    (ids : ℕ → String) (now : ℤ) :
    (DecisionService.evaluate ld pricing_input ids now).decision_type = DecisionType.DECLINED ∨
    (DecisionService.evaluate ld pricing_input ids now).decision_type = DecisionType.REFERRED ∨
    (DecisionService.evaluate ld pricing_input ids now).decision_type =
      DecisionType.CONDITIONALLY_APPROVED := by
  show (DecisionService.determine_decision _ _ _ _).1 = _ ∨
    (DecisionService.determine_decision _ _ _ _).1 = _ ∨
    (DecisionService.determine_decision _ _ _ _).1 = _
  unfold DecisionService.determine_decision
  split_ifs <;> simp

set_option maxHeartbeats 1000000 in
/-- C2: `RulesEngine.evaluate` partitions its per-rule results so that
`hard_stops` are exactly the FAIL results of HARD_STOP severity,
`exceptions_required` exactly the FAIL results of EXCEPTION_REQUIRED
severity, and `warnings` exactly the WARNING-status results; the
overall status is FAIL when a hard stop exists, else WARNING when an
exception-required failure exists, else PASS.  In particular, with
credit score 650 (ltv 70, dscr 1.3, all else passing) rule CREDIT-001
fails as a hard stop and the overall status is FAIL. -/
theorem c2_rules_partition (ld : LoanData) (uid : String) (now : ℤ) :
    (RulesEngine.evaluate rules_engine ld uid now).hard_stops =
      (RulesEngine.evaluate rules_engine ld uid now).rule_results.filter
        (fun r => r.status == RuleStatus.FAIL && r.severity == RuleSeverity.HARD_STOP) ∧
    (RulesEngine.evaluate rules_engine ld uid now).exceptions_required =
      (RulesEngine.evaluate rules_engine ld uid now).rule_results.filter
        (fun r => r.status == RuleStatus.FAIL && r.severity == RuleSeverity.EXCEPTION_REQUIRED) ∧
    (RulesEngine.evaluate rules_engine ld uid now).warnings =
      (RulesEngine.evaluate rules_engine ld uid now).rule_results.filter
        (fun r => r.status == RuleStatus.WARNING) ∧
    (RulesEngine.evaluate rules_engine ld uid now).overall_status =
      (if (RulesEngine.evaluate rules_engine ld uid now).hard_stops ≠ [] then RuleStatus.FAIL
       else if (RulesEngine.evaluate rules_engine ld uid now).exceptions_required ≠ [] then
         RuleStatus.WARNING
       else RuleStatus.PASS) ∧
    (RulesEngine.evaluate rules_engine loan_credit650 "eval-id" 0).hard_stops.map
      RuleResult.rule_id = ["CREDIT-001"] ∧
    (RulesEngine.evaluate rules_engine loan_credit650 "eval-id" 0).overall_status =
      RuleStatus.FAIL := by
  refine ⟨rfl, rfl, rfl, rfl, ?_, ?_⟩ <;>
    · norm_num [RulesEngine.evaluate, RulesEngine.evaluate_rule, rules_engine,
        RulesEngine.init_rules, loan_credit650, List.filter, beq_eq_decide]
      try simp

/-- C3: whenever the computed total monthly PITIA is zero cents,
`calculate` succeeds and returns a DSCR ratio of positive infinity;
the zero-debt-service division is never an error. -/
theorem c3_zero_pitia_infinite_ratio (inp : DSCRCalculationInput) (uid : String) (now : ℤ)
    (bd : DSCRDebtServiceBreakdown)
    (hbd : DSCRCalculator.calculate_debt_service inp = some bd)
    (hz : bd.total_pitia.amount = 0) :
    ∃ res, DSCRCalculator.calculate inp uid now = some res ∧
      res.dscr_ratio = QInf.inf := by
  obtain ⟨res, hres, -, -, -, -, -, hratio, -⟩ :=
    calculate_components inp uid now bd hbd
  refine ⟨res, hres, ?_⟩
  rw [hratio]
  unfold DSCRCalculator.calculate_ratio
  rw [if_pos hz]

/-- C3 witness: the all-defaults input has PITIA zero and an infinite
ratio. -/
theorem c3_zero_pitia_infinite_ratio_witness :
    (DSCRCalculator.calculate_debt_service input_zero_pitia = some bd_zero ∧
     bd_zero.total_pitia.amount = 0) ∧
    ∃ res, DSCRCalculator.calculate input_zero_pitia "id0" 0 = some res ∧
      res.dscr_ratio = QInf.inf :=
  ⟨⟨by norm_num [DSCRCalculator.calculate_debt_service, input_zero_pitia, truncQ,
      DSCRCalculator.add_money, DSCRCalculator.monthly_tax,
      DSCRCalculator.monthly_insurance, bd_zero], rfl⟩,
   c3_zero_pitia_infinite_ratio input_zero_pitia "id0" 0 bd_zero
     (by norm_num [DSCRCalculator.calculate_debt_service, input_zero_pitia, truncQ,
       DSCRCalculator.add_money, DSCRCalculator.monthly_tax,
       DSCRCalculator.monthly_insurance, bd_zero]) rfl⟩

/-- C6 counterexample: for a negative DSCR (dscr = -1 < 1.00) the
band lookup falls off the table and returns 0, not +125, and
`calculate_pricing` applies no DSCR adjustment at all. -/
theorem c6_dscr_adjustment_counterexample :
    pricing_neg_dscr.dscr < 1 ∧
    PricingEngine.get_dscr_adjustment pricing_neg_dscr.dscr = 0 ∧
    ∀ a ∈ (PricingEngine.calculate_pricing pricing_neg_dscr).adjustments,
      a.factor ≠ "DSCR" := by
  refine ⟨by norm_num [pricing_neg_dscr], ?_, ?_⟩
  · norm_num [PricingEngine.get_dscr_adjustment, PricingEngine.DSCR_ADJUSTMENTS,
      PricingEngine.band_matches, List.find?, pricing_neg_dscr]
  · norm_num [PricingEngine.calculate_pricing, PricingEngine.get_dscr_adjustment,
      PricingEngine.get_ltv_adjustment, PricingEngine.get_credit_adjustment,
      PricingEngine.property_type_adjustment, PricingEngine.DSCR_ADJUSTMENTS,
      PricingEngine.LTV_ADJUSTMENTS, PricingEngine.CREDIT_ADJUSTMENTS,
      PricingEngine.PROPERTY_TYPE_ADJUSTMENTS, PricingEngine.band_matches,
      List.find?, pricing_neg_dscr]
    try simp

/-- C6 amended: for every pricing input with a *nonnegative* DSCR
below 1.00 the DSCR adjustment is +125 bps, and for DSCR at or above
1.50 it is -25 bps; in both cases `calculate_pricing` records the
adjustment (for a negative DSCR the lookup instead falls through to
zero). -/
theorem c6_dscr_adjustment_amended (inp : PricingInput) :
    (0 ≤ inp.dscr → inp.dscr < 1 →
      PricingEngine.get_dscr_adjustment inp.dscr = 125 ∧
      ({ factor := "DSCR", adjustment_bps := 125,
         reason := "DSCR of " ++ fmtFixed inp.dscr 2 } : PricingAdjustment) ∈
        (PricingEngine.calculate_pricing inp).adjustments) ∧
    ((3 : ℚ)/2 ≤ inp.dscr →
      PricingEngine.get_dscr_adjustment inp.dscr = -25 ∧
      ({ factor := "DSCR", adjustment_bps := -25,
         reason := "DSCR of " ++ fmtFixed inp.dscr 2 } : PricingAdjustment) ∈
        (PricingEngine.calculate_pricing inp).adjustments) := by
  constructor
  · intro h0 h1
    have hadj : PricingEngine.get_dscr_adjustment inp.dscr = 125 := by
      have n1 : ¬((3 : ℚ)/2 ≤ inp.dscr) := by rw [not_le]; linarith
      have n2 : ¬((5 : ℚ)/4 ≤ inp.dscr) := by rw [not_le]; linarith
      have n3 : ¬((11 : ℚ)/10 ≤ inp.dscr) := by rw [not_le]; linarith
      have n4 : ¬((1 : ℚ) ≤ inp.dscr) := by rw [not_le]; linarith
      norm_num [PricingEngine.get_dscr_adjustment, PricingEngine.DSCR_ADJUSTMENTS,
        PricingEngine.band_matches, List.find?, n1, n2, n3, n4, h0, h1]
    refine ⟨hadj, ?_⟩
    simp only [PricingEngine.calculate_pricing, hadj]
    simp
  · intro h15
    have hadj : PricingEngine.get_dscr_adjustment inp.dscr = -25 := by
      have g1 : (3 : ℚ)/2 ≤ inp.dscr := by linarith
      norm_num [PricingEngine.get_dscr_adjustment, PricingEngine.DSCR_ADJUSTMENTS,
        PricingEngine.band_matches, List.find?, g1]
    refine ⟨hadj, ?_⟩
    simp only [PricingEngine.calculate_pricing, hadj]
    simp

/-- C6 amended witness: both bands at concrete inputs (dscr 0.5 and
dscr 1.6). -/
theorem c6_dscr_adjustment_amended_witness :
    ((0 : ℚ) ≤ pricing_low_dscr.dscr ∧ pricing_low_dscr.dscr < 1 ∧
      PricingEngine.get_dscr_adjustment pricing_low_dscr.dscr = 125 ∧
      ({ factor := "DSCR", adjustment_bps := 125,
         reason := "DSCR of " ++ fmtFixed pricing_low_dscr.dscr 2 } : PricingAdjustment) ∈
        (PricingEngine.calculate_pricing pricing_low_dscr).adjustments) ∧
    ((3 : ℚ)/2 ≤ pricing_high_dscr.dscr ∧
      PricingEngine.get_dscr_adjustment pricing_high_dscr.dscr = -25 ∧
      ({ factor := "DSCR", adjustment_bps := -25,
         reason := "DSCR of " ++ fmtFixed pricing_high_dscr.dscr 2 } : PricingAdjustment) ∈
        (PricingEngine.calculate_pricing pricing_high_dscr).adjustments) :=
  ⟨⟨by norm_num [pricing_low_dscr], by norm_num [pricing_low_dscr],
    (c6_dscr_adjustment_amended pricing_low_dscr).1
      (by norm_num [pricing_low_dscr]) (by norm_num [pricing_low_dscr])⟩,
   ⟨by norm_num [pricing_high_dscr],
    (c6_dscr_adjustment_amended pricing_high_dscr).2
      (by norm_num [pricing_high_dscr])⟩⟩

/-- C8: a rule whose predicate raises (modelled by `check` returning
`none`) yields a NOT_APPLICABLE result, does not abort the batch
(every other rule is still evaluated), lands in none of the
hard-stop / exception / warning partitions, and leaves the overall
status exactly what it would be without that rule. -/
theorem c8_rule_error_not_applicable (rules1 rules2 : List Rule) (r : Rule)
    (ld : LoanData) (uid : String) (now : ℤ) (hc : r.check ld = none) :
    (RulesEngine.evaluate ⟨rules1 ++ r :: rules2⟩ ld uid now).rule_results =
      rules1.map (fun q => RulesEngine.evaluate_rule q ld) ++
        RulesEngine.evaluate_rule r ld ::
          rules2.map (fun q => RulesEngine.evaluate_rule q ld) ∧
    (RulesEngine.evaluate_rule r ld).status = RuleStatus.NOT_APPLICABLE ∧
    RulesEngine.evaluate_rule r ld ∉
      (RulesEngine.evaluate ⟨rules1 ++ r :: rules2⟩ ld uid now).hard_stops ∧
    RulesEngine.evaluate_rule r ld ∉
      (RulesEngine.evaluate ⟨rules1 ++ r :: rules2⟩ ld uid now).exceptions_required ∧
    RulesEngine.evaluate_rule r ld ∉
      (RulesEngine.evaluate ⟨rules1 ++ r :: rules2⟩ ld uid now).warnings ∧
    (RulesEngine.evaluate ⟨rules1 ++ r :: rules2⟩ ld uid now).overall_status =
      (RulesEngine.evaluate ⟨rules1 ++ rules2⟩ ld uid now).overall_status := by
  have hst : (RulesEngine.evaluate_rule r ld).status = RuleStatus.NOT_APPLICABLE := by
    unfold RulesEngine.evaluate_rule
    rw [hc]
  refine ⟨?_, hst, ?_, ?_, ?_, ?_⟩
  · simp [RulesEngine.evaluate]
  · simp [RulesEngine.evaluate, List.mem_filter, hst, beq_eq_decide]
  · simp [RulesEngine.evaluate, List.mem_filter, hst, beq_eq_decide]
  · simp [RulesEngine.evaluate, List.mem_filter, hst, beq_eq_decide]
  · simp [RulesEngine.evaluate, List.filter_append, List.filter_cons, hst, beq_eq_decide]

/-- C8 witness: a one-rule engine whose predicate raises. -/
theorem c8_rule_error_not_applicable_witness :
    (rule_raising.check loan_credit650 = none) ∧
    ((RulesEngine.evaluate ⟨[] ++ rule_raising :: []⟩ loan_credit650 "id" 0).rule_results =
      List.map (fun q => RulesEngine.evaluate_rule q loan_credit650) [] ++
        RulesEngine.evaluate_rule rule_raising loan_credit650 ::
          List.map (fun q => RulesEngine.evaluate_rule q loan_credit650) [] ∧
    (RulesEngine.evaluate_rule rule_raising loan_credit650).status =
      RuleStatus.NOT_APPLICABLE ∧
    RulesEngine.evaluate_rule rule_raising loan_credit650 ∉
      (RulesEngine.evaluate ⟨[] ++ rule_raising :: []⟩ loan_credit650 "id" 0).hard_stops ∧
    RulesEngine.evaluate_rule rule_raising loan_credit650 ∉
      (RulesEngine.evaluate ⟨[] ++ rule_raising :: []⟩ loan_credit650 "id" 0).exceptions_required ∧
    RulesEngine.evaluate_rule rule_raising loan_credit650 ∉
      (RulesEngine.evaluate ⟨[] ++ rule_raising :: []⟩ loan_credit650 "id" 0).warnings ∧
    (RulesEngine.evaluate ⟨[] ++ rule_raising :: []⟩ loan_credit650 "id" 0).overall_status =
      (RulesEngine.evaluate ⟨[] ++ []⟩ loan_credit650 "id" 0).overall_status) :=
  ⟨rfl, c8_rule_error_not_applicable [] [] rule_raising loan_credit650 "id" 0 rfl⟩

/-- C5 counterexample: two runs of `calculate` on the identical input
draw different uuid4 values and return different results, so the four
components are not all bit-identical across runs. -/
theorem c5_determinism_counterexample :
    DSCRCalculator.calculate input_determinism "run1" 0 ≠
      DSCRCalculator.calculate input_determinism "run2" 0 := by
  have hbd : DSCRCalculator.calculate_debt_service input_determinism =
      some { principal_and_interest := { amount := 125000 },
             total_pitia := { amount := 125000 } } := by
    norm_num [DSCRCalculator.calculate_debt_service, input_determinism, truncQ,
      DSCRCalculator.add_money, DSCRCalculator.monthly_tax,
      DSCRCalculator.monthly_insurance]
  intro h
  have h2 := congrArg (fun o => Option.map DSCRCalculationResult.id o) h
  simp only [DSCRCalculator.calculate, hbd, Option.map_some'] at h2
  exact absurd h2 (by decide)

/-- C5 amended: each component is a deterministic function of its
input once the internally drawn ids and timestamps are split off:
`calculate_pricing` (which draws neither) is bit-identical, and the
other three agree on every field other than `id`,
`calculated_at`/`evaluated_at`/`decided_at`, the generated condition
ids and the nested rules-evaluation id. -/
theorem c5_determinism_amended :
    (∀ inp u1 n1 u2 n2,
      (DSCRCalculator.calculate inp u1 n1).map dscr_core =
        (DSCRCalculator.calculate inp u2 n2).map dscr_core) ∧
    (∀ ld u1 n1 u2 n2,
      rules_core (RulesEngine.evaluate rules_engine ld u1 n1) =
        rules_core (RulesEngine.evaluate rules_engine ld u2 n2)) ∧
    (∀ pin, PricingEngine.calculate_pricing pin = PricingEngine.calculate_pricing pin) ∧
    (∀ ld pin ids1 n1 ids2 n2,
      decision_core (DecisionService.evaluate ld pin ids1 n1) =
        decision_core (DecisionService.evaluate ld pin ids2 n2)) := by
  refine ⟨?_, ?_, fun _ => rfl, ?_⟩
  · intro inp u1 n1 u2 n2
    cases hds : DSCRCalculator.calculate_debt_service inp with
    | none => simp [DSCRCalculator.calculate, hds]
    | some bd => simp [DSCRCalculator.calculate, hds, dscr_core]
  · intro ld u1 n1 u2 n2
    rfl
  · intro ld pin ids1 n1 ids2 n2
    simp [DecisionService.evaluate, decision_core, DecisionService.generate_conditions,
      condition_core, List.mapIdx_eq_enum_map, List.map_map, Function.comp_def,
      Function.uncurry, apply_ite (List.map condition_core),
      evaluate_overall_status_eq, evaluate_hard_stops_eq, evaluate_exceptions_eq,
      evaluate_warnings_eq, evaluate_passed_count_eq, evaluate_failed_count_eq]

/-- C1: the decision is resolved by ordered first match: any failed
hard-stop rule gives DECLINED/HARD_STOP_VIOLATION; otherwise a
computed-but-ineligible pricing gives DECLINED/PRICING_INELIGIBLE;
otherwise a failed exception-required rule gives
REFERRED/EXCEPTION_REQUIRED; otherwise a HIGH_RISK pricing tier gives
REFERRED/HIGH_RISK; otherwise
CONDITIONALLY_APPROVED/MEETS_GUIDELINES. -/
theorem c1_decision_first_match (ld : LoanData) (pricing_input : Option PricingInput)
    (ids : ℕ → String) (now : ℤ) :
    ((RulesEngine.evaluate rules_engine ld (ids 0) now).hard_stops ≠ [] →
      (DecisionService.evaluate ld pricing_input ids now).decision_type =
        DecisionType.DECLINED ∧
      (DecisionService.evaluate ld pricing_input ids now).decision_reason =
        DecisionReason.HARD_STOP_VIOLATION) ∧
    (∀ p, pricing_input = some p →
      (RulesEngine.evaluate rules_engine ld (ids 0) now).hard_stops = [] →
      (PricingEngine.calculate_pricing p).eligible = false →
      (DecisionService.evaluate ld pricing_input ids now).decision_type =
        DecisionType.DECLINED ∧
      (DecisionService.evaluate ld pricing_input ids now).decision_reason =
        DecisionReason.PRICING_INELIGIBLE) ∧
    ((RulesEngine.evaluate rules_engine ld (ids 0) now).hard_stops = [] →
      (∀ p, pricing_input = some p → (PricingEngine.calculate_pricing p).eligible = true) →
      (RulesEngine.evaluate rules_engine ld (ids 0) now).exceptions_required ≠ [] →
      (DecisionService.evaluate ld pricing_input ids now).decision_type =
        DecisionType.REFERRED ∧
      (DecisionService.evaluate ld pricing_input ids now).decision_reason =
        DecisionReason.EXCEPTION_REQUIRED) ∧
    (∀ p, pricing_input = some p →
      (RulesEngine.evaluate rules_engine ld (ids 0) now).hard_stops = [] →
      (PricingEngine.calculate_pricing p).eligible = true →
      (RulesEngine.evaluate rules_engine ld (ids 0) now).exceptions_required = [] →
      (PricingEngine.calculate_pricing p).risk_tier = RiskTier.HIGH_RISK →
      (DecisionService.evaluate ld pricing_input ids now).decision_type =
        DecisionType.REFERRED ∧
      (DecisionService.evaluate ld pricing_input ids now).decision_reason =
        DecisionReason.HIGH_RISK) ∧
    ((RulesEngine.evaluate rules_engine ld (ids 0) now).hard_stops = [] →
      (∀ p, pricing_input = some p → (PricingEngine.calculate_pricing p).eligible = true) →
      (RulesEngine.evaluate rules_engine ld (ids 0) now).exceptions_required = [] →
      (∀ p, pricing_input = some p →
        (PricingEngine.calculate_pricing p).risk_tier ≠ RiskTier.HIGH_RISK) →
      (DecisionService.evaluate ld pricing_input ids now).decision_type =
        DecisionType.CONDITIONALLY_APPROVED ∧
      (DecisionService.evaluate ld pricing_input ids now).decision_reason =
        DecisionReason.MEETS_GUIDELINES) := by
  have hty : (DecisionService.evaluate ld pricing_input ids now).decision_type =
      (DecisionService.determine_decision
        (RulesEngine.evaluate rules_engine ld (ids 0) now).overall_status
        (RulesEngine.evaluate rules_engine ld (ids 0) now).hard_stops
        (RulesEngine.evaluate rules_engine ld (ids 0) now).exceptions_required
        (pricing_input.map PricingEngine.calculate_pricing)).1 := rfl
  have hre : (DecisionService.evaluate ld pricing_input ids now).decision_reason =
      (DecisionService.determine_decision
        (RulesEngine.evaluate rules_engine ld (ids 0) now).overall_status
        (RulesEngine.evaluate rules_engine ld (ids 0) now).hard_stops
        (RulesEngine.evaluate rules_engine ld (ids 0) now).exceptions_required
        (pricing_input.map PricingEngine.calculate_pricing)).2 := rfl
  refine ⟨?_, ?_, ?_, ?_, ?_⟩
  · intro h
    refine ⟨hty.trans ?_, hre.trans ?_⟩ <;>
      simp [DecisionService.determine_decision, h]
  · intro p hp h he
    subst hp
    refine ⟨hty.trans ?_, hre.trans ?_⟩ <;>
      simp [DecisionService.determine_decision, h, he]
  · intro h hel hex
    cases pricing_input with
    | none =>
      refine ⟨hty.trans ?_, hre.trans ?_⟩ <;>
        simp [DecisionService.determine_decision, h, hex]
    | some p =>
      have he := hel p rfl
      refine ⟨hty.trans ?_, hre.trans ?_⟩ <;>
        simp [DecisionService.determine_decision, h, he, hex]
  · intro p hp h he hex htier
    subst hp
    refine ⟨hty.trans ?_, hre.trans ?_⟩ <;>
      simp [DecisionService.determine_decision, h, he, hex, htier]
  · intro h hel hex htier
    cases pricing_input with
    | none =>
      refine ⟨hty.trans ?_, hre.trans ?_⟩ <;>
        simp [DecisionService.determine_decision, h, hex]
    | some p =>
      have he := hel p rfl
      have ht := htier p rfl
      refine ⟨hty.trans ?_, hre.trans ?_⟩ <;>
        simp [DecisionService.determine_decision, h, he, hex, ht, beq_eq_decide]

/-- C1 witness: the spec scenario dscr 0.95 with no pricing input
(zero hard stops, one exception-required failure, result
REFERRED/EXCEPTION_REQUIRED). -/
theorem c1_decision_first_match_witness :
    ((RulesEngine.evaluate rules_engine loan_dscr095 ((fun _ => "u") 0) 0).hard_stops = [] ∧
     (RulesEngine.evaluate rules_engine loan_dscr095 ((fun _ => "u") 0) 0).exceptions_required ≠
       []) ∧
    (DecisionService.evaluate loan_dscr095 none (fun _ => "u") 0).decision_type =
      DecisionType.REFERRED ∧
    (DecisionService.evaluate loan_dscr095 none (fun _ => "u") 0).decision_reason =
      DecisionReason.EXCEPTION_REQUIRED := by
  have hhs : (RulesEngine.evaluate rules_engine loan_dscr095 ((fun _ => "u") 0) 0).hard_stops =
      [] := by
    norm_num [RulesEngine.evaluate, RulesEngine.evaluate_rule, rules_engine,
      RulesEngine.init_rules, loan_dscr095, List.filter, beq_eq_decide]
    try simp
  have hex : (RulesEngine.evaluate rules_engine loan_dscr095 ((fun _ => "u") 0)
      0).exceptions_required ≠ [] := by
    norm_num [RulesEngine.evaluate, RulesEngine.evaluate_rule, rules_engine,
      RulesEngine.init_rules, loan_dscr095, List.filter, beq_eq_decide]
    try simp
  exact ⟨⟨hhs, hex⟩,
    (c1_decision_first_match loan_dscr095 none (fun _ => "u") 0).2.2.1 hhs
      (fun p hp => nomatch hp) hex⟩

theorem gross_rent_warning_codes (inp : DSCRCalculationInput) :
    ∀ w ∈ (DSCRCalculator.calculate_gross_rent inp).2,
      w.code = "RENT_DISCREPANCY" ∨ w.code = "NO_RENT_DATA" := by
  intro w hw
  unfold DSCRCalculator.calculate_gross_rent at hw
  revert hw
  rcases inp.is_short_term_rental with _ | _ <;>
    rcases inp.str_annualized_income with _ | strv <;>
    rcases inp.rent_roll with _ | entries <;>
    intro hw <;>
    try simp only [] at hw
  all_goals
    (try split at hw) <;>
    (try unfold DSCRCalculator.gross_rent_from_stated at hw) <;>
    (try unfold DSCRCalculator.gross_rent_from_roll at hw) <;>
    (revert hw
     rcases inp.gross_monthly_rent with _ | g <;> intro hw <;>
       (try simp only [] at hw) <;> (try split_ifs at hw) <;> simp_all)

theorem validate_result_warning_codes (r : QInf) :
    ∀ w ∈ DSCRCalculator.validate_result r,
      w.code = "BELOW_MINIMUM_DSCR" ∨ w.code = "BELOW_PREFERRED_DSCR" ∨
        w.code = "UNUSUALLY_HIGH_DSCR" := by
  intro w hw
  unfold DSCRCalculator.validate_result at hw
  rw [List.mem_append] at hw
  rcases hw with hw | hw <;> split_ifs at hw <;> simp at hw <;> subst hw <;> simp

theorem expenses_warning_iff (inp : DSCRCalculationInput) (t : Money) :
    (∃ w ∈ (DSCRCalculator.calculate_expenses inp t).2, w.code = "HIGH_EXPENSE_RATIO") ↔
      (0 < t.amount ∧
        (((DSCRCalculator.calculate_expenses inp t).1.property_tax_monthly.amount +
          (DSCRCalculator.calculate_expenses inp t).1.insurance_monthly.amount +
          (DSCRCalculator.calculate_expenses inp t).1.hoa_monthly.amount +
          (DSCRCalculator.calculate_expenses inp t).1.management_fee_monthly.amount : ℤ) : ℚ) /
          (t.amount : ℚ) > 1/2) := by
  unfold DSCRCalculator.calculate_expenses
  simp only []
  split_ifs with h1 h2
  · constructor
    · intro _
      refine ⟨h1, ?_⟩
      push_cast at h2 ⊢
      linarith
    · intro _
      exact ⟨_, List.mem_singleton_self _, rfl⟩
  · constructor
    · rintro ⟨w, hw, -⟩
      exact absurd hw (List.not_mem_nil w)
    · rintro ⟨-, hh⟩
      refine absurd ?_ h2
      push_cast at hh ⊢
      linarith
  · constructor
    · rintro ⟨w, hw, -⟩
      exact absurd hw (List.not_mem_nil w)
    · rintro ⟨hh, -⟩
      exact absurd hh h1

theorem expenses_warning_severity (inp : DSCRCalculationInput) (t : Money) :
    ∀ w ∈ (DSCRCalculator.calculate_expenses inp t).2,
      w.severity = WarningSeverity.WARNING := by
  intro w hw
  unfold DSCRCalculator.calculate_expenses at hw
  simp only [] at hw
  split_ifs at hw <;> simp_all

/-- C7 counterexample: with a large flood-insurance premium the
flood-inclusive expense-to-income ratio exceeds 50%, yet `calculate`
emits no HIGH_EXPENSE_RATIO warning, because the guard in
`_calculate_expenses` sums only tax, insurance, HOA and the management
fee. -/
theorem c7_high_expense_counterexample :
    ∃ res, DSCRCalculator.calculate input_flood "cx" 0 = some res ∧
      0 < res.income.effective_gross_rent.amount +
        (res.income.other_income.getD { amount := 0 }).amount ∧
      ((res.expenses.property_tax_monthly.amount + res.expenses.insurance_monthly.amount +
        res.expenses.hoa_monthly.amount + res.expenses.management_fee_monthly.amount +
        res.expenses.flood_insurance_monthly.amount + res.expenses.other_expenses.amount :
          ℤ) : ℚ) /
        ((res.income.effective_gross_rent.amount +
          (res.income.other_income.getD { amount := 0 }).amount : ℤ) : ℚ) > 1/2 ∧
      ∀ w ∈ res.warnings, w.code ≠ "HIGH_EXPENSE_RATIO" := by
  have hbd : DSCRCalculator.calculate_debt_service input_flood =
      some { principal_and_interest := { amount := 10000 },
             total_pitia := { amount := 10000 } } := by
    norm_num [DSCRCalculator.calculate_debt_service, input_flood, truncQ,
      DSCRCalculator.add_money, DSCRCalculator.monthly_tax,
      DSCRCalculator.monthly_insurance]
  obtain ⟨res, hres, hegr, hoi, hexp, -, -, hratio, hwarn⟩ :=
    calculate_components input_flood "cx" 0 _ hbd
  have hegr2 : res.income.effective_gross_rent = { amount := 99000 } := by
    rw [hegr]
    norm_num [DSCRCalculator.apply_vacancy, DSCRCalculator.calculate_gross_rent,
      DSCRCalculator.gross_rent_from_stated, input_flood, or_default, truncQ]
  have hexp2 : res.expenses.property_tax_monthly.amount = 0 ∧
      res.expenses.insurance_monthly.amount = 0 ∧
      res.expenses.hoa_monthly.amount = 0 ∧
      res.expenses.management_fee_monthly.amount = 990 ∧
      res.expenses.flood_insurance_monthly.amount = 1000000 ∧
      res.expenses.other_expenses.amount = 0 := by
    rw [hexp]
    norm_num [DSCRCalculator.calculate_expenses, DSCRCalculator.monthly_tax,
      DSCRCalculator.monthly_insurance, DSCRCalculator.multiply_money,
      DSCRCalculator.add_money, DSCRCalculator.apply_vacancy,
      DSCRCalculator.calculate_gross_rent, DSCRCalculator.gross_rent_from_stated,
      input_flood, or_default, truncQ]
  have hoi2 : res.income.other_income = none := by
    rw [hoi]
    rfl
  refine ⟨res, hres, ?_, ?_, ?_⟩
  · rw [hegr2, hoi2]
    norm_num
  · rw [hoi2, hegr2, hexp2.1, hexp2.2.1, hexp2.2.2.1, hexp2.2.2.2.1,
      hexp2.2.2.2.2.1, hexp2.2.2.2.2.2]
    norm_num
  · intro w hw hcode
    rw [hwarn] at hw
    rw [List.mem_append, List.mem_append] at hw
    rcases hw with (hw | hw) | hw
    · rcases gross_rent_warning_codes input_flood w hw with h | h <;> rw [h] at hcode <;>
        exact absurd hcode (by decide)
    · have h3 := ((expenses_warning_iff input_flood _).mp ⟨w, hw, hcode⟩).2
      norm_num [DSCRCalculator.calculate_expenses, DSCRCalculator.monthly_tax,
        DSCRCalculator.monthly_insurance, DSCRCalculator.multiply_money,
        DSCRCalculator.add_money, DSCRCalculator.apply_vacancy,
        DSCRCalculator.calculate_gross_rent, DSCRCalculator.gross_rent_from_stated,
        input_flood, or_default, truncQ] at h3
    · rcases validate_result_warning_codes _ w hw with h | h | h <;> rw [h] at hcode <;>
        exact absurd hcode (by decide)

/-- C7 amended: for positive total effective gross income, a
HIGH_EXPENSE_RATIO warning of severity WARNING is emitted exactly when
the ratio of monthly tax + insurance + HOA + management fee (flood
insurance and other expenses are *not* counted by the guard) to total
effective gross income exceeds 50%. -/
theorem c7_high_expense_amended (inp : DSCRCalculationInput) (uid : String) (now : ℤ)
    (res : DSCRCalculationResult)
    (hres : DSCRCalculator.calculate inp uid now = some res)
    (hpos : 0 < res.income.effective_gross_rent.amount +
      (res.income.other_income.getD { amount := 0 }).amount) :
    ((∃ w ∈ res.warnings, w.code = "HIGH_EXPENSE_RATIO") ↔
      ((res.expenses.property_tax_monthly.amount + res.expenses.insurance_monthly.amount +
        res.expenses.hoa_monthly.amount + res.expenses.management_fee_monthly.amount :
          ℤ) : ℚ) /
        ((res.income.effective_gross_rent.amount +
          (res.income.other_income.getD { amount := 0 }).amount : ℤ) : ℚ) > 1/2) ∧
    (∀ w ∈ res.warnings, w.code = "HIGH_EXPENSE_RATIO" →
      w.severity = WarningSeverity.WARNING) := by
  cases hds : DSCRCalculator.calculate_debt_service inp with
  | none =>
    unfold DSCRCalculator.calculate at hres
    rw [hds] at hres
    exact absurd hres (by simp)
  | some bd =>
    obtain ⟨res2, hres2, hegr, hoi, hexp, -, -, -, hwarn⟩ :=
      calculate_components inp uid now bd hds
    have hr2 : res2 = res := by
      rw [hres2] at hres
      exact Option.some.inj hres
    rw [hr2] at hegr hoi hexp hwarn
    have hamt : res.income.effective_gross_rent.amount +
        (res.income.other_income.getD { amount := 0 }).amount =
        (DSCRCalculator.add_money
          (DSCRCalculator.apply_vacancy (DSCRCalculator.calculate_gross_rent inp).1
            (or_default inp.vacancy_rate DSCRCalculator.DEFAULT_VACANCY_RATE))
          (inp.other_income.getD { amount := 0 })).amount := by
      rw [hegr, hoi]
      rfl
    constructor
    · constructor
      · rintro ⟨w, hw, hcode⟩
        rw [hwarn, List.mem_append, List.mem_append] at hw
        rcases hw with (hw | hw) | hw
        · rcases gross_rent_warning_codes inp w hw with h | h <;> rw [h] at hcode <;>
            exact absurd hcode (by decide)
        · have h2 := (expenses_warning_iff inp _).mp ⟨w, hw, hcode⟩
          rw [hexp, hamt]
          exact h2.2
        · rcases validate_result_warning_codes _ w hw with h | h | h <;> rw [h] at hcode <;>
            exact absurd hcode (by decide)
      · intro hr
        rw [hexp, hamt] at hr
        obtain ⟨w, hw, hcode⟩ := (expenses_warning_iff inp _).mpr
          ⟨by rw [← hamt]; exact hpos, hr⟩
        refine ⟨w, ?_, hcode⟩
        rw [hwarn, List.mem_append, List.mem_append]
        exact Or.inl (Or.inr hw)
    · intro w hw hcode
      rw [hwarn, List.mem_append, List.mem_append] at hw
      rcases hw with (hw | hw) | hw
      · rcases gross_rent_warning_codes inp w hw with h | h <;> rw [h] at hcode <;>
          exact absurd hcode (by decide)
      · exact expenses_warning_severity inp _ w hw
      · rcases validate_result_warning_codes _ w hw with h | h | h <;> rw [h] at hcode <;>
          exact absurd hcode (by decide)

/-- C7 amended witness: on `input_high_tax` the income is positive and
the warning fires. -/
theorem c7_high_expense_amended_witness :
    ∃ res, (DSCRCalculator.calculate input_high_tax "w7" 0 = some res ∧
      0 < res.income.effective_gross_rent.amount +
        (res.income.other_income.getD { amount := 0 }).amount) ∧
      (((∃ w ∈ res.warnings, w.code = "HIGH_EXPENSE_RATIO") ↔
        ((res.expenses.property_tax_monthly.amount + res.expenses.insurance_monthly.amount +
          res.expenses.hoa_monthly.amount + res.expenses.management_fee_monthly.amount :
            ℤ) : ℚ) /
          ((res.income.effective_gross_rent.amount +
            (res.income.other_income.getD { amount := 0 }).amount : ℤ) : ℚ) > 1/2) ∧
      (∀ w ∈ res.warnings, w.code = "HIGH_EXPENSE_RATIO" →
        w.severity = WarningSeverity.WARNING)) := by
  have hbd : DSCRCalculator.calculate_debt_service input_high_tax =
      some { principal_and_interest := { amount := 10000 },
             total_pitia := { amount := 110000 } } := by
    norm_num [DSCRCalculator.calculate_debt_service, input_high_tax, truncQ,
      DSCRCalculator.add_money, DSCRCalculator.monthly_tax,
      DSCRCalculator.monthly_insurance, DSCRCalculator.divide_money]
  obtain ⟨res, hres, hegr, hoi, -, -, -, -, -⟩ :=
    calculate_components input_high_tax "w7" 0 _ hbd
  have hpos : 0 < res.income.effective_gross_rent.amount +
      (res.income.other_income.getD { amount := 0 }).amount := by
    rw [hegr, hoi]
    norm_num [DSCRCalculator.apply_vacancy, DSCRCalculator.calculate_gross_rent,
      DSCRCalculator.gross_rent_from_stated, input_high_tax, or_default, truncQ]
  exact ⟨res, ⟨hres, hpos⟩,
    c7_high_expense_amended input_high_tax "w7" 0 res hres hpos⟩

-- =========================================================================
-- Annuity lemmas for the amortizing-payment monotonicity
-- =========================================================================

theorem annuityT_pos (r : ℚ) (n : ℕ) (hr : 0 < r) (hn : 1 ≤ n) :
    0 < annuityT r n := by
  unfold annuityT
  apply Finset.sum_pos
  · intro i _
    exact inv_pos.mpr (pow_pos (by linarith) _)
  · exact Finset.nonempty_range_iff.mpr (by omega)

theorem annuityT_le (r : ℚ) (n : ℕ) (hr : 0 ≤ r) : annuityT r n ≤ n := by
  unfold annuityT
  calc ∑ k ∈ Finset.range n, ((1 + r) ^ (k + 1))⁻¹ ≤ ∑ _k ∈ Finset.range n, (1 : ℚ) := by
        apply Finset.sum_le_sum
        intro i _
        apply inv_le_one_of_one_le₀
        apply one_le_pow₀ (by linarith)
    _ = n := by simp

theorem annuityT_anti (r s : ℚ) (n : ℕ) (hr : 0 < r) (hrs : r ≤ s) :
    annuityT s n ≤ annuityT r n := by
  unfold annuityT
  apply Finset.sum_le_sum
  intro i _
  apply inv_anti₀ (pow_pos (by linarith) _)
  exact pow_le_pow_left₀ (by linarith) (by linarith) _

theorem amortization_eq (r : ℚ) (n : ℕ) (hr : 0 < r) (hn : 1 ≤ n) :
    r * (1 + r) ^ n / ((1 + r) ^ n - 1) = (annuityT r n)⁻¹ := by
  have hx : (0 : ℚ) < 1 + r := by linarith
  have hxne : (1 + r) ≠ 0 := ne_of_gt hx
  have hS : ((1 + r) ^ n - 1) = (∑ k ∈ Finset.range n, (1 + r) ^ k) * r := by
    have h := geom_sum_mul (1 + r) n
    rw [show (1 + r) - 1 = r by ring] at h
    exact h.symm
  have hSf : (∑ k ∈ Finset.range n, (1 + r) ^ k) = (1 + r) ^ n * annuityT r n := by
    unfold annuityT
    rw [Finset.mul_sum, ← Finset.sum_range_reflect]
    apply Finset.sum_congr rfl
    intro k hk
    have hk2 : k < n := Finset.mem_range.mp hk
    rw [eq_mul_inv_iff_mul_eq₀ (pow_ne_zero _ hxne), ← pow_add]
    congr 1
    omega
  have hT := annuityT_pos r n hr hn
  have hrne : r ≠ 0 := ne_of_gt hr
  have hxnne : (1 + r) ^ n ≠ 0 := pow_ne_zero _ hxne
  have hTne : annuityT r n ≠ 0 := ne_of_gt hT
  rw [hS, hSf]
  field_simp
  ring

theorem amortizing_pi_mono (L r s : ℚ) (n : ℕ) (hL : 0 ≤ L) (hr : 0 < r)
    (hrs : r ≤ s) (hn : 1 ≤ n) :
    L * r * (1 + r) ^ n / ((1 + r) ^ n - 1) ≤
      L * s * (1 + s) ^ n / ((1 + s) ^ n - 1) := by
  have hs : 0 < s := lt_of_lt_of_le hr hrs
  have e1 : L * r * (1 + r) ^ n / ((1 + r) ^ n - 1) = L * (annuityT r n)⁻¹ := by
    rw [mul_assoc, mul_div_assoc, amortization_eq r n hr hn]
  have e2 : L * s * (1 + s) ^ n / ((1 + s) ^ n - 1) = L * (annuityT s n)⁻¹ := by
    rw [mul_assoc, mul_div_assoc, amortization_eq s n hs hn]
  rw [e1, e2]
  exact mul_le_mul_of_nonneg_left
    (inv_anti₀ (annuityT_pos s n hs hn) (annuityT_anti r s n hr hrs)) hL

theorem amortizing_pi_ge_zero_rate (L s : ℚ) (n : ℕ) (hL : 0 ≤ L) (hs : 0 < s)
    (hn : 1 ≤ n) :
    L / (n : ℚ) ≤ L * s * (1 + s) ^ n / ((1 + s) ^ n - 1) := by
  have e2 : L * s * (1 + s) ^ n / ((1 + s) ^ n - 1) = L * (annuityT s n)⁻¹ := by
    rw [mul_assoc, mul_div_assoc, amortization_eq s n hs hn]
  rw [e2, div_eq_mul_inv]
  exact mul_le_mul_of_nonneg_left
    (inv_anti₀ (annuityT_pos s n hs hn) (annuityT_le s n (le_of_lt hs))) hL

theorem debt_service_pitia_io (inp : DSCRCalculationInput) (k : ℤ)
    (hio : inp.interest_only_months = some k) (hk : 0 < k) :
    (DSCRCalculator.calculate_debt_service inp).map (fun b => b.total_pitia.amount) =
      some (truncQ ((inp.loan_amount.amount : ℚ) / 100 * (inp.interest_rate / 12) * 100) +
        (DSCRCalculator.monthly_tax inp).amount +
        (DSCRCalculator.monthly_insurance inp).amount +
        (inp.monthly_hoa.getD { amount := 0 }).amount) := by
  unfold DSCRCalculator.calculate_debt_service
  rw [hio]
  simp [hk, DSCRCalculator.add_money]

theorem debt_service_pitia_amort_pos (inp : DSCRCalculationInput)
    (hio : (match inp.interest_only_months with
            | some k => decide (0 < k)
            | none => false) = false)
    (hr : 0 < inp.interest_rate / 12) (hn : inp.term_months ≠ 0) :
    (DSCRCalculator.calculate_debt_service inp).map (fun b => b.total_pitia.amount) =
      some (truncQ ((inp.loan_amount.amount : ℚ) / 100 * (inp.interest_rate / 12) *
          (1 + inp.interest_rate / 12) ^ (inp.term_months : ℤ) /
          ((1 + inp.interest_rate / 12) ^ (inp.term_months : ℤ) - 1) * 100) +
        (DSCRCalculator.monthly_tax inp).amount +
        (DSCRCalculator.monthly_insurance inp).amount +
        (inp.monthly_hoa.getD { amount := 0 }).amount) := by
  unfold DSCRCalculator.calculate_debt_service
  rw [hio]
  simp [hr, hn, DSCRCalculator.add_money]

theorem debt_service_pitia_amort_zero (inp : DSCRCalculationInput)
    (hio : (match inp.interest_only_months with
            | some k => decide (0 < k)
            | none => false) = false)
    (hr : ¬(0 < inp.interest_rate / 12)) (hn : inp.term_months ≠ 0) :
    (DSCRCalculator.calculate_debt_service inp).map (fun b => b.total_pitia.amount) =
      some (truncQ ((inp.loan_amount.amount : ℚ) / 100 / (inp.term_months : ℚ) * 100) +
        (DSCRCalculator.monthly_tax inp).amount +
        (DSCRCalculator.monthly_insurance inp).amount +
        (inp.monthly_hoa.getD { amount := 0 }).amount) := by
  unfold DSCRCalculator.calculate_debt_service
  rw [hio]
  simp [hr, hn, DSCRCalculator.add_money]

theorem c9_amort_case (inp : DSCRCalculationInput) (r1 r2 : ℚ)
    (h0 : 0 ≤ r1) (h12 : r1 ≤ r2) (hloan : 0 ≤ inp.loan_amount.amount)
    (hterm : 1 ≤ inp.term_months)
    (hio : (match inp.interest_only_months with
            | some k => decide (0 < k)
            | none => false) = false) :
    ∃ p1 p2,
      (DSCRCalculator.calculate_debt_service { inp with interest_rate := r1 }).map
        (fun b => b.total_pitia.amount) = some p1 ∧
      (DSCRCalculator.calculate_debt_service { inp with interest_rate := r2 }).map
        (fun b => b.total_pitia.amount) = some p2 ∧
      p1 ≤ p2 := by
  have hL : (0 : ℚ) ≤ (inp.loan_amount.amount : ℚ) / 100 := by
    apply div_nonneg _ (by norm_num)
    exact_mod_cast hloan
  have hnne : inp.term_months ≠ 0 := by omega
  obtain ⟨nn, hn2⟩ : ∃ m : ℕ, inp.term_months = (m : ℤ) :=
    ⟨inp.term_months.toNat, (Int.toNat_of_nonneg (by omega)).symm⟩
  have hn1 : 1 ≤ nn := by omega
  by_cases hr1 : 0 < r1
  · have hr2 : 0 < r2 := lt_of_lt_of_le hr1 h12
    refine ⟨_, _,
      debt_service_pitia_amort_pos _ hio (div_pos hr1 (by norm_num)) hnne,
      debt_service_pitia_amort_pos _ hio (div_pos hr2 (by norm_num)) hnne, ?_⟩
    dsimp only
    apply add_le_add_right (add_le_add_right (add_le_add_right (truncQ_mono ?_) _) _) _
    rw [hn2]
    simp only [zpow_natCast]
    exact mul_le_mul_of_nonneg_right
      (amortizing_pi_mono ((inp.loan_amount.amount : ℚ) / 100) (r1 / 12) (r2 / 12) nn hL
        (div_pos hr1 (by norm_num)) (by linarith) hn1) (by norm_num)
  · have hr10 : r1 = 0 := le_antisymm (not_lt.mp hr1) h0
    subst hr10
    by_cases hr2 : 0 < r2
    · refine ⟨_, _,
        debt_service_pitia_amort_zero _ hio (by norm_num) hnne,
        debt_service_pitia_amort_pos _ hio (div_pos hr2 (by norm_num)) hnne, ?_⟩
      dsimp only
      apply add_le_add_right (add_le_add_right (add_le_add_right (truncQ_mono ?_) _) _) _
      rw [hn2]
      simp only [zpow_natCast, Int.cast_natCast]
      exact mul_le_mul_of_nonneg_right
        (amortizing_pi_ge_zero_rate ((inp.loan_amount.amount : ℚ) / 100) (r2 / 12) nn hL
          (div_pos hr2 (by norm_num)) hn1) (by norm_num)
    · have hr20 : r2 = 0 := le_antisymm (not_lt.mp hr2) h12
      subst hr20
      exact ⟨_, _,
        debt_service_pitia_amort_zero _ hio (by norm_num) hnne,
        debt_service_pitia_amort_zero _ hio (by norm_num) hnne, le_refl _⟩

/-- C9 counterexample: on a negative loan amount in its interest-only
period, raising the interest rate from 0 to 0.12 *decreases* the
computed total PITIA (from 0 cents to -1 cents). -/
theorem c9_pitia_monotone_counterexample :
    (0 : ℚ) < 0.12 ∧
    (DSCRCalculator.calculate_debt_service
      { input_neg_loan with interest_rate := 0 }).map
        (fun b => b.total_pitia.amount) = some 0 ∧
    (DSCRCalculator.calculate_debt_service
      { input_neg_loan with interest_rate := 0.12 }).map
        (fun b => b.total_pitia.amount) = some (-1) ∧
    (-1 : ℤ) < 0 := by
  refine ⟨by norm_num, ?_, ?_, by norm_num⟩ <;>
    norm_num [DSCRCalculator.calculate_debt_service, input_neg_loan, truncQ,
      DSCRCalculator.add_money, DSCRCalculator.monthly_tax,
      DSCRCalculator.monthly_insurance, Int.ceil_neg]

/-- C9 amended: with a nonnegative loan amount, a positive term and
nonnegative rates, increasing the interest rate never decreases the
computed total PITIA (for a negative loan amount or rates the code
moves in the opposite direction). -/
theorem c9_pitia_monotone_amended (inp : DSCRCalculationInput) (r1 r2 : ℚ)
    (h0 : 0 ≤ r1) (h12 : r1 ≤ r2)
    (hloan : 0 ≤ inp.loan_amount.amount) (hterm : 1 ≤ inp.term_months) :
    ∃ p1 p2,
      (DSCRCalculator.calculate_debt_service { inp with interest_rate := r1 }).map
        (fun b => b.total_pitia.amount) = some p1 ∧
      (DSCRCalculator.calculate_debt_service { inp with interest_rate := r2 }).map
        (fun b => b.total_pitia.amount) = some p2 ∧
      p1 ≤ p2 := by
  have hL : (0 : ℚ) ≤ (inp.loan_amount.amount : ℚ) / 100 := by
    apply div_nonneg _ (by norm_num)
    exact_mod_cast hloan
  have hLd : (0 : ℚ) ≤ (inp.loan_amount.amount : ℚ) * (r2 - r1) := by
    apply mul_nonneg (by exact_mod_cast hloan)
    linarith
  by_cases hioB : (match inp.interest_only_months with
      | some j => decide (0 < j)
      | none => false) = true
  · -- interest-only: PI is loan_dollars * monthly_rate
    obtain ⟨k, hk1, hk2⟩ : ∃ k, inp.interest_only_months = some k ∧ 0 < k := by
      rcases hM : inp.interest_only_months with _ | k
      · rw [hM] at hioB
        simp at hioB
      · rw [hM] at hioB
        simp at hioB
        exact ⟨k, rfl, hioB⟩
    refine ⟨_, _, debt_service_pitia_io _ k hk1 hk2, debt_service_pitia_io _ k hk1 hk2, ?_⟩
    have key : truncQ ((inp.loan_amount.amount : ℚ) / 100 * (r1 / 12) * 100) ≤
        truncQ ((inp.loan_amount.amount : ℚ) / 100 * (r2 / 12) * 100) := by
      apply truncQ_mono
      nlinarith [hLd]
    exact add_le_add_right (add_le_add_right (add_le_add_right key _) _) _
  · have hioF : (match inp.interest_only_months with
        | some j => decide (0 < j)
        | none => false) = false := by
      rcases hM : inp.interest_only_months with _ | k
      · rfl
      · rw [hM] at hioB
        simp at hioB ⊢
        exact hioB
    exact c9_amort_case inp r1 r2 h0 h12 hloan hterm hioF

/-- C9 amended witness: a 360-month amortizing loan at rates 5% vs
6%. -/
theorem c9_pitia_monotone_amended_witness :
    ((0 : ℚ) ≤ 0.05 ∧ (0.05 : ℚ) ≤ 0.06 ∧ 0 ≤ input_amortizing.loan_amount.amount ∧
      1 ≤ input_amortizing.term_months) ∧
    ∃ p1 p2,
      (DSCRCalculator.calculate_debt_service
        { input_amortizing with interest_rate := 0.05 }).map
          (fun b => b.total_pitia.amount) = some p1 ∧
      (DSCRCalculator.calculate_debt_service
        { input_amortizing with interest_rate := 0.06 }).map
          (fun b => b.total_pitia.amount) = some p2 ∧
      p1 ≤ p2 :=
  ⟨⟨by norm_num, by norm_num, by norm_num [input_amortizing],
    by norm_num [input_amortizing]⟩,
   c9_pitia_monotone_amended input_amortizing 0.05 0.06 (by norm_num) (by norm_num)
     (by norm_num [input_amortizing]) (by norm_num [input_amortizing])⟩

/-- Arithmetic core of the round-trip bound: chasing the four
truncations of the required-rent inversion and recomputation loses
strictly less than 3 cents of NOI against the target `P * t`. -/
theorem round_trip_arith (P F o : ℤ) (t v m : ℚ) (N0 G1 R E M : ℤ)
    (hP : 0 ≤ P) (ht : 0 < t) (hF : 0 ≤ F) (ho : 0 ≤ o)
    (hv0 : 0 ≤ v) (hv1 : v < 1) (hm0 : 0 ≤ m) (hm1 : m < 1)
    (hN0 : N0 = truncQ ((P : ℚ) * t))
    (hG1 : G1 = truncQ (((N0 + F : ℤ) : ℚ) / (1 - v)))
    (hR : R = truncQ ((G1 : ℚ) / (1 - m)))
    (hE : E = truncQ ((R : ℚ) * (1 - v)))
    (hM : M = truncQ (((E + o : ℤ) : ℚ) * m)) :
    (P : ℚ) * t - 3 < ((E + o - F - M : ℤ) : ℚ) := by
  have hvpos : (0 : ℚ) < 1 - v := by linarith
  have hmpos : (0 : ℚ) < 1 - m := by linarith
  have hPt : (0 : ℚ) ≤ (P : ℚ) * t := by
    apply mul_nonneg _ (le_of_lt ht)
    exact_mod_cast hP
  -- N0 bounds
  have hN0nn : 0 ≤ N0 := hN0 ▸ truncQ_nonneg _ hPt
  have hN0lt : (P : ℚ) * t - 1 < (N0 : ℚ) := hN0 ▸ sub_one_lt_truncQ _ hPt
  -- G1 bounds
  have hNFnn : (0 : ℚ) ≤ ((N0 + F : ℤ) : ℚ) / (1 - v) := by
    apply div_nonneg _ (le_of_lt hvpos)
    push_cast
    have : (0 : ℚ) ≤ (N0 : ℚ) := by exact_mod_cast hN0nn
    have hFq : (0 : ℚ) ≤ (F : ℚ) := by exact_mod_cast hF
    linarith
  have hG1nn : 0 ≤ G1 := hG1 ▸ truncQ_nonneg _ hNFnn
  have hG1lt : ((N0 + F : ℤ) : ℚ) / (1 - v) - 1 < (G1 : ℚ) := hG1 ▸ sub_one_lt_truncQ _ hNFnn
  -- R bounds
  have hGmnn : (0 : ℚ) ≤ (G1 : ℚ) / (1 - m) := by
    apply div_nonneg _ (le_of_lt hmpos)
    exact_mod_cast hG1nn
  have hRnn : 0 ≤ R := hR ▸ truncQ_nonneg _ hGmnn
  have hRlt : (G1 : ℚ) / (1 - m) - 1 < (R : ℚ) := hR ▸ sub_one_lt_truncQ _ hGmnn
  -- E bounds
  have hRvnn : (0 : ℚ) ≤ (R : ℚ) * (1 - v) := by
    apply mul_nonneg _ (le_of_lt hvpos)
    exact_mod_cast hRnn
  have hEnn : 0 ≤ E := hE ▸ truncQ_nonneg _ hRvnn
  have hElt : (R : ℚ) * (1 - v) - 1 < (E : ℚ) := hE ▸ sub_one_lt_truncQ _ hRvnn
  -- M upper bound
  have hEonn : (0 : ℚ) ≤ ((E + o : ℤ) : ℚ) * m := by
    apply mul_nonneg _ hm0
    push_cast
    have h1 : (0 : ℚ) ≤ (E : ℚ) := by exact_mod_cast hEnn
    have h2 : (0 : ℚ) ≤ (o : ℚ) := by exact_mod_cast ho
    linarith
  have hMle : (M : ℚ) ≤ ((E + o : ℤ) : ℚ) * m := hM ▸ truncQ_cast_le _ hEonn
  -- multiply the floor bounds through the positive factors
  have a4 : (1 - v) * (G1 : ℚ) > ((N0 : ℚ) + (F : ℚ)) - (1 - v) := by
    have h2 := mul_lt_mul_of_pos_left hG1lt hvpos
    have heq : (1 - v) * (((N0 + F : ℤ) : ℚ) / (1 - v) - 1) =
        ((N0 : ℚ) + (F : ℚ)) - (1 - v) := by
      push_cast
      field_simp
    linarith [heq ▸ h2]
  have a3 : (1 - v) * ((1 - m) * (R : ℚ)) > (1 - v) * ((G1 : ℚ) - (1 - m)) := by
    apply mul_lt_mul_of_pos_left _ hvpos
    have h3 := mul_lt_mul_of_pos_left hRlt hmpos
    have heq : (1 - m) * ((G1 : ℚ) / (1 - m) - 1) = (G1 : ℚ) - (1 - m) := by
      field_simp
    linarith [heq ▸ h3]
  have a2 : (1 - m) * (E : ℚ) > (1 - m) * ((R : ℚ) * (1 - v) - 1) :=
    mul_lt_mul_of_pos_left hElt hmpos
  -- bound products of the two factors by 1
  have b3 : (1 - v) * (1 - m) ≤ 1 := by nlinarith
  have c1 : (0 : ℚ) ≤ (1 - m) * (o : ℚ) := by
    apply mul_nonneg (le_of_lt hmpos)
    exact_mod_cast ho
  -- chain everything (products of atoms are linear once expanded)
  have hNOIq : (N0 : ℚ) - 3 < ((E + o - F - M : ℤ) : ℚ) := by
    push_cast at hMle a4 a3 a2 c1 ⊢
    nlinarith [a2, a3, a4, hMle, b3, c1, hvpos, hmpos]
  -- sharpen over the integers
  have hint : N0 - 2 ≤ E + o - F - M := by
    have : (N0 : ℚ) - 3 < ((E + o - F - M : ℤ) : ℚ) := hNOIq
    have h2 : ((N0 - 3 : ℤ) : ℚ) < ((E + o - F - M : ℤ) : ℚ) := by push_cast; push_cast at this; linarith
    have h3 : (N0 - 3 : ℤ) < E + o - F - M := by exact_mod_cast h2
    omega
  have hfin : ((N0 : ℚ)) - 2 ≤ ((E + o - F - M : ℤ) : ℚ) := by
    have : ((N0 - 2 : ℤ) : ℚ) ≤ ((E + o - F - M : ℤ) : ℚ) := by exact_mod_cast hint
    push_cast at this ⊢
    linarith
  linarith

/-- C4 amended: for an input that actually uses the stated gross rent
(no rent roll, not a short-term rental), with nonnegative PITIA, fixed
expenses and other income, zero `other_monthly_expenses` (which the
inversion ignores), resolved vacancy and management rates in `[0, 1)`,
and a positive target, feeding `calculate_required_rent`'s output back
as the stated rent yields a DSCR ratio of at least
`t - 3/PITIA` — i.e. the target up to 3 cents of NOI rounding. -/
theorem c4_round_trip_amended (inp : DSCRCalculationInput) (t : ℚ) (uid : String) (now : ℤ)
    (bd : DSCRDebtServiceBreakdown)
    (hbd : DSCRCalculator.calculate_debt_service inp = some bd)
    (hP : 0 ≤ bd.total_pitia.amount)
    (ht : 0 < t)
    (hstr : inp.is_short_term_rental = false)
    (hroll : inp.rent_roll = none)
    (hv0 : 0 ≤ or_default inp.vacancy_rate DSCRCalculator.DEFAULT_VACANCY_RATE)
    (hv1 : or_default inp.vacancy_rate DSCRCalculator.DEFAULT_VACANCY_RATE < 1)
    (hm0 : 0 ≤ or_default inp.management_fee_rate DSCRCalculator.DEFAULT_MANAGEMENT_FEE_RATE)
    (hm1 : or_default inp.management_fee_rate DSCRCalculator.DEFAULT_MANAGEMENT_FEE_RATE < 1)
    (hfix : 0 ≤ (DSCRCalculator.calculate_fixed_expenses inp).amount)
    (ho : 0 ≤ (inp.other_income.getD { amount := 0 }).amount)
    (hoe : (inp.other_monthly_expenses.getD { amount := 0 }).amount = 0)
    (rent : Money)
    (hrent : DSCRCalculator.calculate_required_rent inp (some t) = some rent) :
    ∃ res, DSCRCalculator.calculate { inp with gross_monthly_rent := some rent } uid now =
        some res ∧
      res.dscr_ratio.AtLeast (t - 3 / (bd.total_pitia.amount : ℚ)) := by
  have hvpos : (0 : ℚ) <
      1 - or_default inp.vacancy_rate DSCRCalculator.DEFAULT_VACANCY_RATE := by linarith
  have hmpos : (0 : ℚ) <
      1 - or_default inp.management_fee_rate DSCRCalculator.DEFAULT_MANAGEMENT_FEE_RATE := by
    linarith
  have htR : or_default (some t) DSCRCalculator.MINIMUM_DSCR = t := by
    simp [or_default, ne_of_gt ht]
  -- extract the required-rent amount
  unfold DSCRCalculator.calculate_required_rent at hrent
  rw [hbd] at hrent
  simp only [htR] at hrent
  have hrent2 : rent = DSCRCalculator.divide_money
      (DSCRCalculator.divide_money
        (DSCRCalculator.add_money
          (DSCRCalculator.multiply_money bd.total_pitia t)
          (DSCRCalculator.calculate_fixed_expenses inp))
        (1 - or_default inp.vacancy_rate DSCRCalculator.DEFAULT_VACANCY_RATE))
      (1 - or_default inp.management_fee_rate DSCRCalculator.DEFAULT_MANAGEMENT_FEE_RATE) :=
    (Option.some.inj hrent).symm
  have hRamt : rent.amount = truncQ (((truncQ
      ((((truncQ ((bd.total_pitia.amount : ℚ) * t)) +
        (DSCRCalculator.calculate_fixed_expenses inp).amount : ℤ) : ℚ) /
        (1 - or_default inp.vacancy_rate DSCRCalculator.DEFAULT_VACANCY_RATE)) : ℤ) : ℚ) /
      (1 - or_default inp.management_fee_rate DSCRCalculator.DEFAULT_MANAGEMENT_FEE_RATE)) := by
    rw [hrent2]
    simp [DSCRCalculator.divide_money, DSCRCalculator.multiply_money,
      DSCRCalculator.add_money, ne_of_gt hvpos, ne_of_gt hmpos]
  -- the modified input still has the same debt service
  have hbd2 : DSCRCalculator.calculate_debt_service
      { inp with gross_monthly_rent := some rent } = some bd := hbd
  obtain ⟨res, hres, hegr, hoi, hexp, hnoi, hds, hratio, hwarn⟩ :=
    calculate_components { inp with gross_monthly_rent := some rent } uid now bd hbd2
  -- the stated rent is used as gross rent
  have hgr : DSCRCalculator.calculate_gross_rent
      { inp with gross_monthly_rent := some rent } = (rent, []) := by
    unfold DSCRCalculator.calculate_gross_rent
    rw [show ({ inp with gross_monthly_rent := some rent } :
        DSCRCalculationInput).is_short_term_rental = false from hstr]
    rw [show ({ inp with gross_monthly_rent := some rent } :
        DSCRCalculationInput).rent_roll = none from hroll]
    simp [DSCRCalculator.gross_rent_from_stated]
  -- component amounts
  have hEamt : res.income.effective_gross_rent.amount =
      truncQ ((rent.amount : ℚ) *
        (1 - or_default inp.vacancy_rate DSCRCalculator.DEFAULT_VACANCY_RATE)) := by
    rw [hegr, hgr]
    rfl
  have hMamt : res.expenses.management_fee_monthly.amount =
      truncQ (((res.income.effective_gross_rent.amount +
        (inp.other_income.getD { amount := 0 }).amount : ℤ) : ℚ) *
        or_default inp.management_fee_rate DSCRCalculator.DEFAULT_MANAGEMENT_FEE_RATE) := by
    rw [hexp, hegr]
    rfl
  have hFsum : (DSCRCalculator.calculate_fixed_expenses inp).amount =
      (DSCRCalculator.monthly_tax inp).amount +
      (DSCRCalculator.monthly_insurance inp).amount +
      (inp.monthly_hoa.getD { amount := 0 }).amount +
      (inp.monthly_flood_insurance.getD { amount := 0 }).amount := rfl
  have hNOIraw : res.noi.monthly.amount =
      (res.income.effective_gross_rent.amount +
        (inp.other_income.getD { amount := 0 }).amount) -
      ((DSCRCalculator.monthly_tax inp).amount +
        (DSCRCalculator.monthly_insurance inp).amount +
        (inp.monthly_hoa.getD { amount := 0 }).amount +
        res.expenses.management_fee_monthly.amount +
        (inp.monthly_flood_insurance.getD { amount := 0 }).amount +
        (inp.other_monthly_expenses.getD { amount := 0 }).amount) := by
    rw [hnoi, hegr, hexp]
    rfl
  have hNOIamt : res.noi.monthly.amount =
      res.income.effective_gross_rent.amount +
      (inp.other_income.getD { amount := 0 }).amount -
      (DSCRCalculator.calculate_fixed_expenses inp).amount -
      res.expenses.management_fee_monthly.amount := by
    rw [hNOIraw]
    omega
  -- arithmetic core
  have harith := round_trip_arith bd.total_pitia.amount
    (DSCRCalculator.calculate_fixed_expenses inp).amount
    (inp.other_income.getD { amount := 0 }).amount
    t (or_default inp.vacancy_rate DSCRCalculator.DEFAULT_VACANCY_RATE)
    (or_default inp.management_fee_rate DSCRCalculator.DEFAULT_MANAGEMENT_FEE_RATE)
    (truncQ ((bd.total_pitia.amount : ℚ) * t))
    (truncQ ((((truncQ ((bd.total_pitia.amount : ℚ) * t)) +
      (DSCRCalculator.calculate_fixed_expenses inp).amount : ℤ) : ℚ) /
      (1 - or_default inp.vacancy_rate DSCRCalculator.DEFAULT_VACANCY_RATE)))
    rent.amount
    res.income.effective_gross_rent.amount
    res.expenses.management_fee_monthly.amount
    hP ht hfix ho hv0 hv1 hm0 hm1 rfl rfl hRamt
    (by rw [hEamt]) (by rw [hMamt])
  rw [← hNOIamt] at harith
  -- conclude about the ratio
  refine ⟨res, hres, ?_⟩
  rw [hratio]
  unfold DSCRCalculator.calculate_ratio
  by_cases hPz : bd.total_pitia.amount = 0
  · rw [if_pos hPz]
    exact trivial
  · rw [if_neg hPz]
    have hPpos : (0 : ℚ) < (bd.total_pitia.amount : ℚ) := by
      have : 0 < bd.total_pitia.amount := lt_of_le_of_ne hP (Ne.symm hPz)
      exact_mod_cast this
    show t - 3 / (bd.total_pitia.amount : ℚ) ≤
      (res.noi.monthly.amount : ℚ) / (bd.total_pitia.amount : ℚ)
    have hdiv : ((bd.total_pitia.amount : ℚ) * t - 3) / (bd.total_pitia.amount : ℚ) ≤
        (res.noi.monthly.amount : ℚ) / (bd.total_pitia.amount : ℚ) :=
      (div_le_div_right hPpos).mpr (le_of_lt harith)
    have heq : ((bd.total_pitia.amount : ℚ) * t - 3) / (bd.total_pitia.amount : ℚ) =
        t - 3 / (bd.total_pitia.amount : ℚ) := by
      field_simp
      ring
    linarith [heq ▸ hdiv]

/-- C4 counterexample: `calculate_required_rent` ignores
`other_monthly_expenses`, so on an input with $10,000/month of other
expenses and target DSCR 1, feeding the required rent back in yields a
DSCR of -99.0001 — far below the target, not an integer-cents rounding
effect (the ratio is not even nonnegative). -/
theorem c4_round_trip_counterexample :
    ∃ rent res,
      DSCRCalculator.calculate_required_rent input_other_expenses (some 1) = some rent ∧
      DSCRCalculator.calculate
        { input_other_expenses with gross_monthly_rent := some rent } "c4" 0 = some res ∧
      res.dscr_ratio = QInf.val (-990001 / 10000) ∧
      ¬ res.dscr_ratio.AtLeast 0 ∧ (0 : ℚ) < 1 := by
  have hbd : DSCRCalculator.calculate_debt_service input_other_expenses =
      some { principal_and_interest := { amount := 10000 },
             total_pitia := { amount := 10000 } } := by
    norm_num [DSCRCalculator.calculate_debt_service, input_other_expenses, truncQ,
      DSCRCalculator.add_money, DSCRCalculator.monthly_tax,
      DSCRCalculator.monthly_insurance]
  have hrent : DSCRCalculator.calculate_required_rent input_other_expenses (some 1) =
      some { amount := 11441 } := by
    unfold DSCRCalculator.calculate_required_rent
    rw [hbd]
    norm_num [or_default, DSCRCalculator.multiply_money,
      DSCRCalculator.calculate_fixed_expenses, DSCRCalculator.add_money,
      DSCRCalculator.divide_money, DSCRCalculator.monthly_tax,
      DSCRCalculator.monthly_insurance, truncQ, input_other_expenses,
      DSCRCalculator.MINIMUM_DSCR, DSCRCalculator.DEFAULT_VACANCY_RATE,
      DSCRCalculator.DEFAULT_MANAGEMENT_FEE_RATE]
  have hbd2 : DSCRCalculator.calculate_debt_service
      { input_other_expenses with gross_monthly_rent := some { amount := 11441 } } =
      some { principal_and_interest := { amount := 10000 },
             total_pitia := { amount := 10000 } } := hbd
  obtain ⟨res, hres, hegr, hoi, hexp, hnoi, hds, hratio, hwarn⟩ :=
    calculate_components _ "c4" 0 _ hbd2
  have hnoiv : res.noi.monthly = { amount := -990001 } := by
    rw [hnoi]
    norm_num [DSCRCalculator.apply_vacancy, DSCRCalculator.calculate_gross_rent,
      DSCRCalculator.gross_rent_from_stated, DSCRCalculator.calculate_expenses,
      DSCRCalculator.add_money, DSCRCalculator.subtract_money,
      DSCRCalculator.multiply_money, DSCRCalculator.monthly_tax,
      DSCRCalculator.monthly_insurance, or_default, truncQ, input_other_expenses,
      DSCRCalculator.DEFAULT_VACANCY_RATE, DSCRCalculator.DEFAULT_MANAGEMENT_FEE_RATE]
  have hr : res.dscr_ratio = QInf.val (-990001 / 10000) := by
    rw [hratio, hnoiv]
    norm_num [DSCRCalculator.calculate_ratio]
  refine ⟨_, res, hrent, hres, hr, ?_, by norm_num⟩
  rw [hr]
  show ¬ ((0 : ℚ) ≤ -990001 / 10000)
  norm_num

/-- C4 amended witness: a clean stated-rent input at target 1.25. -/
theorem c4_round_trip_amended_witness :
    (DSCRCalculator.calculate_debt_service input_round_trip =
       some { principal_and_interest := { amount := 125000 },
              total_pitia := { amount := 200000 } } ∧
     (0 : ℤ) ≤ 200000 ∧ (0 : ℚ) < 1.25 ∧
     input_round_trip.is_short_term_rental = false ∧
     input_round_trip.rent_roll = none ∧
     0 ≤ or_default input_round_trip.vacancy_rate DSCRCalculator.DEFAULT_VACANCY_RATE ∧
     or_default input_round_trip.vacancy_rate DSCRCalculator.DEFAULT_VACANCY_RATE < 1 ∧
     0 ≤ or_default input_round_trip.management_fee_rate
       DSCRCalculator.DEFAULT_MANAGEMENT_FEE_RATE ∧
     or_default input_round_trip.management_fee_rate
       DSCRCalculator.DEFAULT_MANAGEMENT_FEE_RATE < 1 ∧
     0 ≤ (DSCRCalculator.calculate_fixed_expenses input_round_trip).amount ∧
     0 ≤ (input_round_trip.other_income.getD { amount := 0 }).amount ∧
     (input_round_trip.other_monthly_expenses.getD { amount := 0 }).amount = 0 ∧
     DSCRCalculator.calculate_required_rent input_round_trip (some 1.25) =
       some { amount := 371853 }) ∧
    ∃ res, DSCRCalculator.calculate
        { input_round_trip with gross_monthly_rent := some { amount := 371853 } }
        "w4" 0 = some res ∧
      res.dscr_ratio.AtLeast (1.25 - 3 / ((200000 : ℤ) : ℚ)) := by
  have hbd : DSCRCalculator.calculate_debt_service input_round_trip =
      some { principal_and_interest := { amount := 125000 },
             total_pitia := { amount := 200000 } } := by
    norm_num [DSCRCalculator.calculate_debt_service, input_round_trip, truncQ,
      DSCRCalculator.add_money, DSCRCalculator.monthly_tax,
      DSCRCalculator.monthly_insurance, DSCRCalculator.divide_money]
  have hrent : DSCRCalculator.calculate_required_rent input_round_trip (some 1.25) =
      some { amount := 371853 } := by
    unfold DSCRCalculator.calculate_required_rent
    rw [hbd]
    norm_num [or_default, DSCRCalculator.multiply_money,
      DSCRCalculator.calculate_fixed_expenses, DSCRCalculator.add_money,
      DSCRCalculator.divide_money, DSCRCalculator.monthly_tax,
      DSCRCalculator.monthly_insurance, truncQ, input_round_trip,
      DSCRCalculator.MINIMUM_DSCR, DSCRCalculator.DEFAULT_VACANCY_RATE,
      DSCRCalculator.DEFAULT_MANAGEMENT_FEE_RATE]
  refine ⟨⟨hbd, by norm_num, by norm_num, rfl, rfl,
    by norm_num [or_default, input_round_trip, DSCRCalculator.DEFAULT_VACANCY_RATE],
    by norm_num [or_default, input_round_trip, DSCRCalculator.DEFAULT_VACANCY_RATE],
    by norm_num [or_default, input_round_trip, DSCRCalculator.DEFAULT_MANAGEMENT_FEE_RATE],
    by norm_num [or_default, input_round_trip, DSCRCalculator.DEFAULT_MANAGEMENT_FEE_RATE],
    by norm_num [DSCRCalculator.calculate_fixed_expenses, DSCRCalculator.add_money,
      DSCRCalculator.monthly_tax, DSCRCalculator.monthly_insurance,
      DSCRCalculator.divide_money, truncQ, input_round_trip],
    by norm_num [input_round_trip], by norm_num [input_round_trip], hrent⟩, ?_⟩
  exact c4_round_trip_amended input_round_trip 1.25 "w4" 0 _ hbd (by norm_num)
    (by norm_num) rfl rfl
    (by norm_num [or_default, input_round_trip, DSCRCalculator.DEFAULT_VACANCY_RATE])
    (by norm_num [or_default, input_round_trip, DSCRCalculator.DEFAULT_VACANCY_RATE])
    (by norm_num [or_default, input_round_trip, DSCRCalculator.DEFAULT_MANAGEMENT_FEE_RATE])
    (by norm_num [or_default, input_round_trip, DSCRCalculator.DEFAULT_MANAGEMENT_FEE_RATE])
    (by norm_num [DSCRCalculator.calculate_fixed_expenses, DSCRCalculator.add_money,
      DSCRCalculator.monthly_tax, DSCRCalculator.monthly_insurance,
      DSCRCalculator.divide_money, truncQ, input_round_trip])
    (by norm_num [input_round_trip]) (by norm_num [input_round_trip])
    { amount := 371853 } hrent

end DSCRLoans
